import Mathlib

/-!
# Verification of the ar-drivers frame codecs and protocol engines

Shallow embedding of `src/nreal.rs` (Nreal Light, the "text" frame family
over raw USB interrupt transfers) and `src/nreal_air.rs` (Nreal Air, the
"binary" frame family over HID reports).

Bytes are modelled as `Nat` (values < 256 where the source has `u8`), byte
buffers as `List Nat`.  Machine-integer truncation is written out as `% 2^w`
where the source relies on it.  Rust functions that can panic on some inputs
(out-of-bounds slice index, debug-mode integer overflow) are embedded as
`Except Unit _` with `.error ()` standing for the panic.  `f32` arithmetic is
idealised as arithmetic in an arbitrary `Field R` (instantiated at `ℝ` in
theorems); `f32::to_radians` becomes multiplication by `piv / 180` where
`piv` is the model's rendition of the `π` constant.
-/

namespace ArDrivers

/-- `sub l off len` models the Rust slice `l[off..off+len]` (truncated at the
end of the list instead of panicking; every use site establishes the bounds
separately). -/
def sub (l : List Nat) (off len : Nat) : List Nat :=
  (l.drop off).take len

/-- Little-endian value of a byte list (first byte least significant),
modelling the `byteorder::LittleEndian` readers. -/
def readLE (l : List Nat) : Nat :=
  l.foldr (fun b acc => b + 256 * acc) 0

/-- Little-endian encoding of `n` into `w` bytes, modelling the in-memory
layout of the `repr(C, packed)` little-endian integer fields. -/
def leBytes : Nat → Nat → List Nat
  | 0, _ => []
  | w + 1, n => n % 256 :: leBytes w (n / 256)

/-- The 256-entry CRC-32 lookup table `CRCTABLE` from `nreal.rs` (zlib/PNG
variant), verbatim. -/
def CRCTABLE : List Nat := [
  0x00000000, 0x77073096, 0xee0e612c, 0x990951ba, 0x076dc419, 0x706af48f, 0xe963a535, 0x9e6495a3,
  0x0edb8832, 0x79dcb8a4, 0xe0d5e91e, 0x97d2d988, 0x09b64c2b, 0x7eb17cbd, 0xe7b82d07, 0x90bf1d91,
  0x1db71064, 0x6ab020f2, 0xf3b97148, 0x84be41de, 0x1adad47d, 0x6ddde4eb, 0xf4d4b551, 0x83d385c7,
  0x136c9856, 0x646ba8c0, 0xfd62f97a, 0x8a65c9ec, 0x14015c4f, 0x63066cd9, 0xfa0f3d63, 0x8d080df5,
  0x3b6e20c8, 0x4c69105e, 0xd56041e4, 0xa2677172, 0x3c03e4d1, 0x4b04d447, 0xd20d85fd, 0xa50ab56b,
  0x35b5a8fa, 0x42b2986c, 0xdbbbc9d6, 0xacbcf940, 0x32d86ce3, 0x45df5c75, 0xdcd60dcf, 0xabd13d59,
  0x26d930ac, 0x51de003a, 0xc8d75180, 0xbfd06116, 0x21b4f4b5, 0x56b3c423, 0xcfba9599, 0xb8bda50f,
  0x2802b89e, 0x5f058808, 0xc60cd9b2, 0xb10be924, 0x2f6f7c87, 0x58684c11, 0xc1611dab, 0xb6662d3d,
  0x76dc4190, 0x01db7106, 0x98d220bc, 0xefd5102a, 0x71b18589, 0x06b6b51f, 0x9fbfe4a5, 0xe8b8d433,
  0x7807c9a2, 0x0f00f934, 0x9609a88e, 0xe10e9818, 0x7f6a0dbb, 0x086d3d2d, 0x91646c97, 0xe6635c01,
  0x6b6b51f4, 0x1c6c6162, 0x856530d8, 0xf262004e, 0x6c0695ed, 0x1b01a57b, 0x8208f4c1, 0xf50fc457,
  0x65b0d9c6, 0x12b7e950, 0x8bbeb8ea, 0xfcb9887c, 0x62dd1ddf, 0x15da2d49, 0x8cd37cf3, 0xfbd44c65,
  0x4db26158, 0x3ab551ce, 0xa3bc0074, 0xd4bb30e2, 0x4adfa541, 0x3dd895d7, 0xa4d1c46d, 0xd3d6f4fb,
  0x4369e96a, 0x346ed9fc, 0xad678846, 0xda60b8d0, 0x44042d73, 0x33031de5, 0xaa0a4c5f, 0xdd0d7cc9,
  0x5005713c, 0x270241aa, 0xbe0b1010, 0xc90c2086, 0x5768b525, 0x206f85b3, 0xb966d409, 0xce61e49f,
  0x5edef90e, 0x29d9c998, 0xb0d09822, 0xc7d7a8b4, 0x59b33d17, 0x2eb40d81, 0xb7bd5c3b, 0xc0ba6cad,
  0xedb88320, 0x9abfb3b6, 0x03b6e20c, 0x74b1d29a, 0xead54739, 0x9dd277af, 0x04db2615, 0x73dc1683,
  0xe3630b12, 0x94643b84, 0x0d6d6a3e, 0x7a6a5aa8, 0xe40ecf0b, 0x9309ff9d, 0x0a00ae27, 0x7d079eb1,
  0xf00f9344, 0x8708a3d2, 0x1e01f268, 0x6906c2fe, 0xf762575d, 0x806567cb, 0x196c3671, 0x6e6b06e7,
  0xfed41b76, 0x89d32be0, 0x10da7a5a, 0x67dd4acc, 0xf9b9df6f, 0x8ebeeff9, 0x17b7be43, 0x60b08ed5,
  0xd6d6a3e8, 0xa1d1937e, 0x38d8c2c4, 0x4fdff252, 0xd1bb67f1, 0xa6bc5767, 0x3fb506dd, 0x48b2364b,
  0xd80d2bda, 0xaf0a1b4c, 0x36034af6, 0x41047a60, 0xdf60efc3, 0xa867df55, 0x316e8eef, 0x4669be79,
  0xcb61b38c, 0xbc66831a, 0x256fd2a0, 0x5268e236, 0xcc0c7795, 0xbb0b4703, 0x220216b9, 0x5505262f,
  0xc5ba3bbe, 0xb2bd0b28, 0x2bb45a92, 0x5cb36a04, 0xc2d7ffa7, 0xb5d0cf31, 0x2cd99e8b, 0x5bdeae1d,
  0x9b64c2b0, 0xec63f226, 0x756aa39c, 0x026d930a, 0x9c0906a9, 0xeb0e363f, 0x72076785, 0x05005713,
  0x95bf4a82, 0xe2b87a14, 0x7bb12bae, 0x0cb61b38, 0x92d28e9b, 0xe5d5be0d, 0x7cdcefb7, 0x0bdbdf21,
  0x86d3d2d4, 0xf1d4e242, 0x68ddb3f8, 0x1fda836e, 0x81be16cd, 0xf6b9265b, 0x6fb077e1, 0x18b74777,
  0x88085ae6, 0xff0f6a70, 0x66063bca, 0x11010b5c, 0x8f659eff, 0xf862ae69, 0x616bffd3, 0x166ccf45,
  0xa00ae278, 0xd70dd2ee, 0x4e048354, 0x3903b3c2, 0xa7672661, 0xd06016f7, 0x4969474d, 0x3e6e77db,
  0xaed16a4a, 0xd9d65adc, 0x40df0b66, 0x37d83bf0, 0xa9bcae53, 0xdebb9ec5, 0x47b2cf7f, 0x30b5ffe9,
  0xbdbdf21c, 0xcabac28a, 0x53b39330, 0x24b4a3a6, 0xbad03605, 0xcdd70693, 0x54de5729, 0x23d967bf,
  0xb3667a2e, 0xc4614ab8, 0x5d681b02, 0x2a6f2b94, 0xb40bbe37, 0xc30c8ea1, 0x5a05df1b, 0x2d02ef8d]

/-- One step of the `crc32` loop of `nreal.rs`:
`idx = byte ^ (r & 0xff); r = (r >> 8) ^ CRCTABLE[idx]`.
Bytes are < 256 at every call site, so `idx < 256` and the `getD` default is
unreachable. -/
def crc32Step (r b : Nat) : Nat :=
  Nat.xor (r / 256) (CRCTABLE.getD (Nat.xor b (r % 256)) 0)

/-- `crc32` from `nreal.rs`: seed `0xffffffff`, table-driven update per byte,
final XOR with `0xffffffff`. -/
def crc32 (buf : List Nat) : Nat :=
  Nat.xor (buf.foldl crc32Step 0xffffffff) 0xffffffff

/-- ASCII code of the lowercase hex digit of `d < 16` (as produced by Rust's
`{:x}` formatting). -/
def hexDigit (d : Nat) : Nat :=
  if d < 10 then 48 + d else 87 + d

/-- ASCII bytes of the lowercase hexadecimal rendering of `n` (most
significant digit first; `0` renders as "0"), as produced by `{:x}`. -/
def toHex (n : Nat) : List Nat :=
  if n = 0 then [48] else (Nat.digits 16 n).reverse.map hexDigit

/-- ASCII bytes of Rust's `{n:>8x}`: the hex rendering right-justified in a
field of width 8, padded on the left with spaces (byte 32). -/
def hex8 (n : Nat) : List Nat :=
  List.replicate (8 - (toHex n).length) 32 ++ toHex n

/-! ## Text family frame codec (`Packet` in `nreal.rs`) -/

/-- `Packet` from `nreal.rs`: category byte, command-id byte, payload. -/
structure Packet where
  category : Nat
  cmd_id : Nat
  data : List Nat
deriving DecidableEq, Repr

/-- `Packet::default()`: zero category and command id, payload `"x"`. -/
def Packet.default : Packet := ⟨0, 0, [120]⟩

/-- A write into the 64-byte `std::io::Cursor` buffer of
`Packet::serialize`: appends the chunk truncated to the remaining capacity
(`io::Write::write` on a cursor over `[u8; 0x40]` performs a partial write
and reports success). `acc` is the list of bytes written so far, whose
length is the cursor position. -/
def cwrite (acc chunk : List Nat) : List Nat :=
  acc ++ chunk.take (64 - acc.length)

/-- `Packet::serialize` from `nreal.rs`.  Writes
`STX ':' category ':' cmd_id ':' payload ':' '0' ':'`, then the CRC-32 of
everything written so far formatted as `{:>8x}` (this `write!` is the only
write that can fail: `write_fmt` errors when the 8 formatted bytes do not
all fit), then `':' ETX`, and returns the whole 64-byte zero-padded
buffer. -/
def Packet.serialize (p : Packet) : Option (List Nat) :=
  let a1 := cwrite [] [2, 58, p.category, 58, p.cmd_id, 58]
  let a2 := cwrite a1 p.data
  let a3 := cwrite a2 [58, 48, 58]
  let crc := crc32 a3
  if a3.length + 8 ≤ 64 then
    let a4 := a3 ++ hex8 crc
    let a5 := cwrite a4 [58, 3]
    some (a5 ++ List.replicate (64 - a5.length) 0)
  else none

/-- Index of the first ETX byte (3) in a buffer, modelling
`data.iter().position(|c| *c == 3)`. -/
def firstETX : List Nat → Option Nat
  | [] => none
  | b :: rest => if b = 3 then some 0 else (firstETX rest).map (· + 1)

/-- Split a byte list on the `':'` byte (58), modelling
`inner.split(|c| *c == b':')`: always yields at least one (possibly empty)
part, one more part per separator. -/
def splitColon : List Nat → List (List Nat)
  | [] => [[]]
  | b :: rest =>
    if b = 58 then [] :: splitColon rest
    else
      match splitColon rest with
      | f :: r => (b :: f) :: r
      | [] => [[b]]

/-- `Packet::deserialize` from `nreal.rs`: require STX at byte 0, locate the
first ETX, split the interior on `':'`; the first part is skipped, the
second and third parts contribute their first byte as category and command
id, the fourth part is the payload; the trailing timestamp and CRC fields
are not verified.  (The source indexes `data[0]`; it is only ever called on
a 64-byte read buffer, so the empty case cannot arise.) -/
def Packet.deserialize (data : List Nat) : Option Packet :=
  match data with
  | [] => none
  | d0 :: _ =>
    if d0 ≠ 2 then none
    else
      match firstETX data with
      | none => none
      | some e =>
        let inner := (data.drop 1).take (e - 1)
        match splitColon inner with
        | _empty :: p1 :: p2 :: p3 :: _ =>
          match p1.head?, p2.head? with
          | some category, some cmd_id => some ⟨category, cmd_id, p3⟩
          | _, _ => none
        | _ => none

/-! ## Binary family frame codecs (`McuPacket`, `ImuPacket` in `nreal_air.rs`)

The `repr(C, packed)` raw structs are embedded by their byte layout inside
the 64-byte buffer.  `McuRawPacket`: head at offset 0, checksum 1..5,
length 5..7, request id 7..11, timestamp 11..15, command id 15..17, 5
reserved bytes 17..22, 42 payload bytes 22..64.  `ImuRawPacket`: head at 0,
checksum 1..5, length 5..7, command id at 7, 56 payload bytes 8..64.
The external `crate::util::crc32_adler` checksum (its source is not part of
this tree; the spec treats it as a deterministic black-box function) is a
parameter `adler` of the serializers. -/

/-- `McuPacket` from `nreal_air.rs`: 16-bit command id and payload. -/
structure McuPacket where
  cmd_id : Nat
  data : List Nat
deriving DecidableEq, Repr

/-- `McuPacket::default()`: zero command id, empty payload. -/
def McuPacket.default : McuPacket := ⟨0, []⟩

/-- `McuPacket::deserialize` from `nreal_air.rs`: reject the frame unless
the head byte is `0xfd`, then slice `data[0..length - 17]` out of the fixed
42-byte payload field.  The slice bound is taken from the wire: when the
length field is below 17 the subtraction underflows and when it exceeds 59
the slice end passes the payload field, and in both cases the source
panics; the panic is `.error ()`. -/
def McuPacket.deserialize (buf : List Nat) : Except Unit (Option McuPacket) :=
  if readLE (sub buf 0 1) ≠ 0xfd then .ok none
  else
    let len := readLE (sub buf 5 2)
    if 17 ≤ len ∧ len ≤ 59 then
      .ok (some ⟨readLE (sub buf 15 2), sub buf 22 (len - 17)⟩)
    else .error ()

/-- `McuPacket::serialize` from `nreal_air.rs`: head `0xfd`, checksum,
`length = payload length + 17`, request id `0x1337`, zero timestamp,
command id, 5 reserved zero bytes, payload zero-padded to 42 bytes; the
checksum is `crc32_adler` of bytes `5 .. 5 + length` of the buffer (which
do not include the checksum field itself).  `copy_from_slice` panics when
the payload exceeds the 42-byte field; the panic is `.error ()`. -/
def McuPacket.serialize (adler : List Nat → Nat) (p : McuPacket) :
    Except Unit (List Nat) :=
  if p.data.length ≤ 42 then
    let len := p.data.length + 17
    let pad := p.data ++ List.replicate (42 - p.data.length) 0
    let body := [0xfd] ++ leBytes 4 0 ++ leBytes 2 len ++ leBytes 4 0x1337 ++
      leBytes 4 0 ++ leBytes 2 p.cmd_id ++ List.replicate 5 0 ++ pad
    let cksum := adler (sub body 5 len)
    .ok ([0xfd] ++ leBytes 4 cksum ++ leBytes 2 len ++ leBytes 4 0x1337 ++
      leBytes 4 0 ++ leBytes 2 p.cmd_id ++ List.replicate 5 0 ++ pad)
  else .error ()

/-- `ImuPacket` from `nreal_air.rs`: 8-bit command id and payload. -/
structure ImuPacket where
  cmd_id : Nat
  data : List Nat
deriving DecidableEq, Repr

/-- `ImuPacket::deserialize` from `nreal_air.rs`: reject unless the head
byte is `0xaa`, then slice `data[0..length - 3]` out of the fixed 56-byte
payload field; a length field below 3 or above 59 makes the source panic,
modelled as `.error ()`. -/
def ImuPacket.deserialize (buf : List Nat) : Except Unit (Option ImuPacket) :=
  if readLE (sub buf 0 1) ≠ 0xaa then .ok none
  else
    let len := readLE (sub buf 5 2)
    if 3 ≤ len ∧ len ≤ 59 then
      .ok (some ⟨readLE (sub buf 7 1), sub buf 8 (len - 3)⟩)
    else .error ()

/-- `ImuPacket::serialize` from `nreal_air.rs`: head `0xaa`, checksum,
`length = payload length + 3`, command id byte, payload zero-padded to 56
bytes; checksum is `crc32_adler` of bytes `5 .. 5 + length`. -/
def ImuPacket.serialize (adler : List Nat → Nat) (p : ImuPacket) :
    Except Unit (List Nat) :=
  if p.data.length ≤ 56 then
    let len := p.data.length + 3
    let pad := p.data ++ List.replicate (56 - p.data.length) 0
    let body := [0xaa] ++ leBytes 4 0 ++ leBytes 2 len ++ [p.cmd_id % 256] ++ pad
    let cksum := adler (sub body 5 len)
    .ok ([0xaa] ++ leBytes 4 cksum ++ leBytes 2 len ++ [p.cmd_id % 256] ++ pad)
  else .error ()

/-! ## Command/response engine — text family (`NrealLight` in `nreal.rs`)

The USB transport is modelled as a stream (`List`) of read results: each
item is `some buf` for a read that filled the 64-byte buffer, or `none` for
a read that failed with `rusb::Error::Timeout`.  Reading past the end of
the stream behaves like a timeout (a silent device). -/

/-- The `Error` variants of the crate root that `nreal.rs` and
`nreal_air.rs` construct (the crate root `lib.rs` is not part of this
tree; the variants are taken from their use sites and from the spec's
error taxonomy). -/
inductive DriverError where
  | other (msg : String)
  | timeout
  | usbWrite
  | packetTimeout
  | disconnected (msg : String)
deriving DecidableEq, Repr

/-- The bounded junk-frame loop of `NrealLight::read_packet`: up to `fuel`
reads; a read timeout propagates as an error, an undecodable buffer
consumes one attempt, a decodable buffer is returned together with the
unconsumed remainder of the stream.  Exhausting the attempts is the
"Received too many junk packets" error. -/
def readPacketAux :
    Nat → List (Option (List Nat)) →
    Except DriverError Packet × List (Option (List Nat))
  | 0, s => (.error (.other "Received too many junk packets"), s)
  | _ + 1, [] => (.error .timeout, [])
  | fuel + 1, item :: rest =>
    match item with
    | none => (.error .timeout, rest)
    | some buf =>
      match Packet.deserialize buf with
      | some p => (.ok p, rest)
      | none => readPacketAux fuel rest

/-- `NrealLight::read_packet`: the junk loop with its 8-attempt bound. -/
def NrealLight.read_packet (stream : List (Option (List Nat))) :
    Except DriverError Packet × List (Option (List Nat)) :=
  readPacketAux 8 stream

/-- Text-family response correlation (`nreal.rs` line 248): the response's
category must be the request's category plus one (u8 addition, hence
modulo 256) and its command id must equal the request's. -/
def textCorrelates (command packet : Packet) : Prop :=
  packet.category = (command.category + 1) % 256 ∧ packet.cmd_id = command.cmd_id

instance (command packet : Packet) : Decidable (textCorrelates command packet) := by
  unfold textCorrelates; infer_instance

/-- The bounded read loop of `NrealLight::run_command`: read a packet; a
correlating packet's payload is the result, every other packet is appended
to the back of the pending queue.  Exhausting the attempts is the
"Received too many unrelated packets" error.  Returns the payload, the
final pending queue and the unconsumed stream. -/
def runCommandAux (command : Packet) :
    Nat → List (Option (List Nat)) → List Packet →
    Except DriverError (List Nat × List Packet × List (Option (List Nat)))
  | 0, _, _ => .error (.other "Received too many unrelated packets")
  | fuel + 1, stream, pending =>
    match NrealLight.read_packet stream with
    | (.error e, _) => .error e
    | (.ok packet, rest) =>
      if textCorrelates command packet then .ok (packet.data, pending, rest)
      else runCommandAux command fuel rest (pending ++ [packet])

/-- `NrealLight::run_command`: serialize and write the command (a
serialization failure is the "Packet serialization failed" error; a write
failure would propagate, and is not modelled since the claims quantify over
successful writes), then run the 64-attempt read loop starting from the
session's current pending queue. -/
def NrealLight.run_command (command : Packet) (stream : List (Option (List Nat)))
    (pending : List Packet) :
    Except DriverError (List Nat × List Packet × List (Option (List Nat))) :=
  match command.serialize with
  | none => .error (.other "Packet serialization failed")
  | some _ => runCommandAux command 64 stream pending

/-! ## Command/response engine — binary family (`NrealAir` in `nreal_air.rs`)

The HID transport read (`read_timeout`) is modelled as a stream of items:
`some buf` for a read that returned a full buffer and `none` for a read
that returned zero bytes.  An exhausted stream behaves like a zero-byte
read.  A panic inside `McuPacket::deserialize` propagates (`.error .panic`
below). -/

/-- Binary-family engine outcomes, including the decoder panic. -/
inductive AirError where
  | other (msg : String)
  | packetTimeout
  | panic
deriving DecidableEq, Repr

/-- `NrealAir::read_packet`: one `read_timeout`; zero bytes is `Ok(None)`,
otherwise the buffer must decode (`None` from the decoder is the
"Malformed packet received" error, a decoder panic propagates). -/
def NrealAir.read_packet (stream : List (Option (List Nat))) :
    Except AirError (Option McuPacket) × List (Option (List Nat)) :=
  match stream with
  | [] => (.ok none, [])
  | none :: rest => (.ok none, rest)
  | some buf :: rest =>
    match McuPacket.deserialize buf with
    | .error _ => (.error .panic, rest)
    | .ok none => (.error (.other "Malformed packet received"), rest)
    | .ok (some p) => (.ok (some p), rest)

/-- Binary-family response correlation (`nreal_air.rs` line 218): the
response's command id must equal the request's. -/
def airCorrelates (command packet : McuPacket) : Prop :=
  packet.cmd_id = command.cmd_id

instance (command packet : McuPacket) : Decidable (airCorrelates command packet) := by
  unfold airCorrelates; infer_instance

/-- The bounded read loop of `NrealAir::run_command`: a zero-byte read is
the `PacketTimeout` error, a correlating packet's payload is the result,
every other packet goes to the back of the pending queue; exhausting the 64
attempts is the "Received too many unrelated packets" error. -/
def airRunCommandAux (command : McuPacket) :
    Nat → List (Option (List Nat)) → List McuPacket →
    Except AirError (List Nat × List McuPacket × List (Option (List Nat)))
  | 0, _, _ => .error (.other "Received too many unrelated packets")
  | fuel + 1, stream, pending =>
    match NrealAir.read_packet stream with
    | (.error e, _) => .error e
    | (.ok none, _) => .error .packetTimeout
    | (.ok (some packet), rest) =>
      if airCorrelates command packet then .ok (packet.data, pending, rest)
      else airRunCommandAux command fuel rest (pending ++ [packet])

/-- `NrealAir::run_command`: serialize and write the command (a serializer
panic propagates), then run the 64-attempt read loop. -/
def NrealAir.run_command (adler : List Nat → Nat) (command : McuPacket)
    (stream : List (Option (List Nat))) (pending : List McuPacket) :
    Except AirError (List Nat × List McuPacket × List (Option (List Nat))) :=
  match McuPacket.serialize adler command with
  | .error _ => .error .panic
  | .ok _ => airRunCommandAux command 64 stream pending

/-! ## Unified event polling — text family (`NrealLight::read_event`)

The loop body of `read_event` is embedded as one iteration function
`readEventIter` (heartbeat check, shared-slot check, thread-liveness check,
pending-queue pop or raw read, classification), and `readEvent` iterates it
with explicit fuel (the Rust loop is unbounded; running out of fuel is a
model artifact that the theorems avoid by supplying enough fuel).  The
wall clock and the success of the heartbeat USB write are supplied per
iteration as functions of the iteration index.  The slot payload type `S`
stands for the `SensorData3D` pair held in the shared cell; the
classification never inspects it. -/

/-- The `GlassesEvent` variants `NrealLight::read_event` can produce
(`GlassesEvent` itself lives in the crate root, which is not part of this
tree; the variants are taken from their construction sites). -/
inductive LightEvent (S : Type) where
  | accGyro (accelerometer gyroscope : S)
  | keyPress (key : Nat)
  | proximityNear
  | proximityFar
  | ambientLight (level : Nat)
  | vsync
deriving DecidableEq, Repr

/-- Outcome of one iteration of the `read_event` loop: an event is
returned, the loop continues, or the call fails with an error. -/
inductive IterOut (S : Type) where
  | ev (e : LightEvent S)
  | loop
  | fail (e : DriverError)
deriving DecidableEq, Repr

/-- The mutable `NrealLight` session state visible to `read_event`:
last-heartbeat instant (ms), the shared sensor slot, the strong count of
the shared `Arc` (2 while the OV580 thread lives), the pending packet
queue, and the unread transport stream. -/
structure LightState (S : Type) where
  lastHeartbeat : Nat
  slot : Option (S × S)
  arcCount : Nat
  pending : List Packet
  stream : List (Option (List Nat))

/-- The heartbeat packet of `nreal.rs`: category `'@'`, command id `'K'`,
default payload `"x"`. -/
def hbPacket : Packet := ⟨64, 75, [120]⟩

/-- Is `b` an ASCII hexadecimal digit (as accepted by
`u16::from_str_radix(_, 16)`)? -/
def isHexDigitByte (b : Nat) : Bool :=
  (48 ≤ b && b ≤ 57) || (97 ≤ b && b ≤ 102) || (65 ≤ b && b ≤ 70)

/-- Numeric value of an ASCII hexadecimal digit byte. -/
def hexVal (b : Nat) : Nat :=
  if b ≤ 57 then b - 48 else if b ≤ 70 then b - 55 else b - 87

/-- Value of an ASCII hexadecimal digit string. -/
def parseHex (data : List Nat) : Nat :=
  data.foldl (fun acc b => acc * 16 + hexVal b) 0

/-- The ambient-light payload parse of `read_event`:
`u16::from_str_radix(&String::from_utf8(data)?, 16)`.  Modelled for the
ASCII case: non-ASCII bytes report the UTF-8 error (a multi-byte UTF-8
sequence would instead report the number error; no claim depends on the
distinction), then the digits must be nonempty, all hexadecimal, and the
value must fit in a `u16`. -/
def parseAmbient (data : List Nat) : Except DriverError Nat :=
  if ¬ data.all (· < 128) then .error (.other "Invalid utf-8 in ambient light msg")
  else if data ≠ [] ∧ data.all isHexDigitByte ∧ parseHex data < 65536 then
    .ok (parseHex data)
  else .error (.other "Invalid number in ambient light msg")

/-- The `match packet` classification at the bottom of
`NrealLight::read_event`: category `'5'` (53) events are key
up/down (`'K'` with `"UP"`/`"DN"`), proximity (`'P'` with
`"near"`/`"away"`), ambient light (`'L'`, hexadecimal payload), and vsync
(`'S'`); everything else (including the silently ignored category-65 ping
acknowledgement) falls through and the loop continues. -/
def classifyPacket (S : Type) (p : Packet) : IterOut S :=
  if p.category = 53 ∧ p.cmd_id = 75 ∧ p.data = [85, 80] then .ev (.keyPress 0)
  else if p.category = 53 ∧ p.cmd_id = 75 ∧ p.data = [68, 78] then .ev (.keyPress 1)
  else if p.category = 53 ∧ p.cmd_id = 80 ∧ p.data = [110, 101, 97, 114] then .ev .proximityNear
  else if p.category = 53 ∧ p.cmd_id = 80 ∧ p.data = [97, 119, 97, 121] then .ev .proximityFar
  else if p.category = 53 ∧ p.cmd_id = 76 then
    match parseAmbient p.data with
    | .ok level => .ev (.ambientLight level)
    | .error e => .fail e
  else if p.category = 53 ∧ p.cmd_id = 83 then .ev .vsync
  else .loop

/-- Steps 2–5 of one `read_event` iteration (everything after the
heartbeat): take the shared slot if it holds a pair; else fail if the
OV580 thread is dead (`Arc` strong count ≠ 2); else pop the pending queue,
or read (1 ms timeout — a read timeout re-enters the loop); classify the
obtained packet. -/
def readEventRest (S : Type) (st : LightState S) : IterOut S × LightState S :=
  match st.slot with
  | some (accelerometer, gyroscope) =>
    (.ev (.accGyro accelerometer gyroscope), { st with slot := none })
  | none =>
    if st.arcCount ≠ 2 then (.fail (.disconnected "Nreal Light OV580"), st)
    else
      match st.pending with
      | p :: rest => (classifyPacket S p, { st with pending := rest })
      | [] =>
        match NrealLight.read_packet st.stream with
        | (.error .timeout, s) => (.loop, { st with stream := s })
        | (.error e, s) => (.fail e, { st with stream := s })
        | (.ok p, s) => (classifyPacket S p, { st with stream := s })

/-- One full iteration of the `read_event` loop: if more than 250 ms
elapsed since the last heartbeat, serialize and write the heartbeat packet
(a failed write propagates as an error and the timestamp stays; a
successful write updates the timestamp — no acknowledgment is ever read),
then run the remaining steps.  The third component lists the frames
written during the iteration. -/
def readEventIter (S : Type) (now : Nat) (writeOk : Bool) (st : LightState S) :
    IterOut S × LightState S × List (List Nat) :=
  if 250 < now - st.lastHeartbeat then
    match Packet.serialize hbPacket with
    | none => (.fail (.other "Packet serialization failed"), st, [])
    | some frame =>
      if writeOk then
        let out := readEventRest S { st with lastHeartbeat := now }
        (out.1, out.2, [frame])
      else (.fail .usbWrite, st, [])
  else
    let out := readEventRest S st
    (out.1, out.2, [])

/-- `NrealLight::read_event`: iterate `readEventIter` until it returns an
event or fails; `clock i` and `writeOk i` are the wall clock and the
heartbeat-write outcome of iteration `i`.  The Rust loop is unbounded;
`fuel` bounds the model and its exhaustion is a model-only error. -/
def readEvent (S : Type) (clock : Nat → Nat) (writeOk : Nat → Bool) :
    Nat → Nat → LightState S → Except DriverError (LightEvent S × LightState S)
  | 0, _, _ => .error (.other "model fuel exhausted")
  | fuel + 1, i, st =>
    match readEventIter S (clock i) (writeOk i) st with
    | (.ev e, st1, _) => .ok (e, st1)
    | (.fail e, _, _) => .error e
    | (.loop, st1, _) => readEvent S clock writeOk fuel (i + 1) st1

/-! ## Event polling — binary family (`NrealAir::read_mcu_packet`) -/

/-- A 3-component vector (`nalgebra::Vector3` as used by `nreal_air.rs`). -/
structure V3 (R : Type) where
  x : R
  y : R
  z : R
deriving Repr

/-- The `GlassesEvent` variants `nreal_air.rs` can produce. -/
inductive AirEvent (R : Type) where
  | keyPress (key : Nat)
  | accGyro (accelerometer gyroscope : V3 R) (timestamp : Nat)
deriving Repr

/-- The `match packet` classification of `NrealAir::read_mcu_packet`:
command id `0x6c05` is a key press carrying `data[0] - 1`; indexing
`data[0]` on an empty payload panics, and `data[0] - 1` underflows for a
zero first byte (a panic in the debug profile, which is how `u8`
subtraction is embedded here); command id `0x6c09` is a silently discarded
error report, and every other id also yields `None`. -/
def classifyMcu (R : Type) (p : McuPacket) : Except AirError (Option (AirEvent R)) :=
  if p.cmd_id = 0x6c05 then
    match p.data with
    | [] => .error .panic
    | d0 :: _ => if d0 = 0 then .error .panic else .ok (some (.keyPress (d0 - 1)))
  else .ok none

/-- `NrealAir::read_mcu_packet`: pop the pending queue, or else perform one
zero-timeout read; no packet means `Ok(None)`; an obtained packet is
classified.  Returns the event option, the remaining queue and the
remaining stream. -/
def NrealAir.readMcuPacket (R : Type) (pending : List McuPacket)
    (stream : List (Option (List Nat))) :
    Except AirError (Option (AirEvent R) × List McuPacket × List (Option (List Nat))) :=
  match pending with
  | p :: prest =>
    match classifyMcu R p with
    | .error e => .error e
    | .ok ev => .ok (ev, prest, stream)
  | [] =>
    match NrealAir.read_packet stream with
    | (.error e, _) => .error e
    | (.ok none, rest) => .ok (none, [], rest)
    | (.ok (some p), rest) =>
      match classifyMcu R p with
      | .error e => .error e
      | .ok ev => .ok (ev, [], rest)

/-! ## Calibration loader — variant A (`Ov580::read_config` in `nreal.rs`) -/

/-- The `Ov580` bias state (the six `f32` bias fields, idealised in `R`). -/
structure Ov580 (R : Type) where
  accel_bias_x : R
  accel_bias_y : R
  accel_bias_z : R
  gyro_bias_x : R
  gyro_bias_y : R
  gyro_bias_z : R
deriving Repr

/-- The freshly constructed `Ov580` of `Ov580::new`: all six biases zero. -/
def Ov580.init (R : Type) [Field R] : Ov580 R := ⟨0, 0, 0, 0, 0, 0⟩

/-- The 3-byte start sentinel searched by `Ov580::read_config`. -/
def sentinel : List Nat := [10, 10, 123]

/-- The chunk-accumulation loop of `Ov580::read_config`: responses to the
`0x15` command are consumed while they begin with the marker pair `2, 1`,
each contributing the slice `part[3 .. 3 + part[2]]`; the first
non-matching response stops the loop.  (`parts` is the response sequence;
responses are 128-byte buffers, so the indexing is in bounds, and a
declared chunk length above 125 — which would make the source's slice
panic — is truncated here and exercised by no claim.) -/
def accumConfig : List (List Nat) → List Nat
  | [] => []
  | part :: rest =>
    if part.getD 0 0 = 2 ∧ part.getD 1 0 = 1 then
      sub part 3 (part.getD 2 0) ++ accumConfig rest
    else []

/-- The scan loop body of `Ov580::read_config` over the index list: at each
`i` with `config[i..i+3]` equal to the sentinel, the suffix
`config[i+2..]` is handed to the UTF-8 / blank-line split / JSON-parse /
bias-extraction pipeline — embedded abstractly as `parseCfg`, whose
`.error` cases are the source's "no start token" / "no end token" / "JSON
parse error" returns and whose `.ok` is the resulting bias assignment; a
sentinel miss leaves the state untouched and the scan continue in either
case (the source has no `break`). -/
def scanAux {R : Type} (parseCfg : List Nat → Except DriverError (Ov580 R))
    (config : List Nat) : List Nat → Ov580 R → Except DriverError (Ov580 R)
  | [], st => .ok st
  | i :: rest, st =>
    if sub config i 3 = sentinel then
      match parseCfg (config.drop (i + 2)) with
      | .error e => .error e
      | .ok st1 => scanAux parseCfg config rest st1
    else scanAux parseCfg config rest st

/-- The sentinel scan of `Ov580::read_config`:
`for i in 0x28..config.len() - 4`.  A blob shorter than 4 bytes makes the
source's range-end subtraction underflow (a panic, modelled as an error
the claims avoid); otherwise the scan runs over the index range and
returns the final bias state. -/
def Ov580.readConfigScan {R : Type} (parseCfg : List Nat → Except DriverError (Ov580 R))
    (config : List Nat) (st : Ov580 R) : Except DriverError (Ov580 R) :=
  if config.length < 4 then .error (.other "panic: config.len() - 4 underflows")
  else scanAux parseCfg config (List.range' 0x28 (config.length - 4 - 0x28)) st

/-! ## Sensor normalizers (`Ov580::receive_one_report`,
`ImuDevice::parse_report`)

`f32` arithmetic is idealised in a field `R`; `piv` stands for the `π`
constant of `to_radians`, and `9.81` is the literal `981 / 100`. -/

/-- One calibrated sample stream element (`SensorData3D` of the crate
root): timestamp plus three axis values. -/
structure SensorData3D (R : Type) where
  timestamp : Nat
  x : R
  y : R
  z : R
deriving Repr

/-- Two's-complement reading of an unsigned `bits`-wide little-endian
value, modelling the signed `read_i32` / `read_i24` readers. -/
def toSigned (bits n : Nat) : Int :=
  if n < 2 ^ (bits - 1) then (n : Int) else (n : Int) - 2 ^ bits

/-- Little-endian field read at a byte offset. -/
def readLEAt (buf : List Nat) (off len : Nat) : Nat :=
  readLE (sub buf off len)

/-- `f32::to_radians`: multiplication by `π / 180`. -/
def toRadians {R : Type} [Field R] (piv x : R) : R :=
  x * (piv / 180)

/-- `Ov580::receive_one_report` from `nreal.rs`: a 128-byte report whose
leading byte is not 1 yields no sample; otherwise the cursor over
`result[44..]` reads the gyroscope block (u64 tick counter, u32 scale
multiplier and divisor, three i32 raw axes) and then the accelerometer
block of the same shape, producing exactly one gyroscope and one
accelerometer sample: per axis `raw * mul / div`, then degrees→radians for
the gyroscope and `* 9.81` for the accelerometer, then the fixed
`(+x, -y, -z)` remap with per-axis bias subtracted on x and added on y and
z; each timestamp is the raw tick counter divided by 1000.  A report too
short for the reads would be an `io` error (never reached at 128 bytes). -/
def Ov580.receive_one_report {R : Type} [Field R] (piv : R) (o : Ov580 R)
    (result : List Nat) :
    Except DriverError (Option (SensorData3D R × SensorData3D R)) :=
  if result.length < 100 then .error (.other "io: unexpected end of report")
  else if result.getD 0 0 ≠ 1 then .ok none
  else
    let gyro_timestamp := readLEAt result 44 8 / 1000
    let gyro_mul : R := (readLEAt result 52 4 : Nat)
    let gyro_div : R := (readLEAt result 56 4 : Nat)
    let gyro_x : R := (toSigned 32 (readLEAt result 60 4) : Int)
    let gyro_y : R := (toSigned 32 (readLEAt result 64 4) : Int)
    let gyro_z : R := (toSigned 32 (readLEAt result 68 4) : Int)
    let gyro : SensorData3D R := {
      timestamp := gyro_timestamp
      x := toRadians piv (gyro_x * gyro_mul / gyro_div) - o.gyro_bias_x
      y := -(toRadians piv (gyro_y * gyro_mul / gyro_div)) + o.gyro_bias_y
      z := -(toRadians piv (gyro_z * gyro_mul / gyro_div)) + o.gyro_bias_z }
    let acc_timestamp := readLEAt result 72 8 / 1000
    let acc_mul : R := (readLEAt result 80 4 : Nat)
    let acc_div : R := (readLEAt result 84 4 : Nat)
    let acc_x : R := (toSigned 32 (readLEAt result 88 4) : Int)
    let acc_y : R := (toSigned 32 (readLEAt result 92 4) : Int)
    let acc_z : R := (toSigned 32 (readLEAt result 96 4) : Int)
    let acc : SensorData3D R := {
      timestamp := acc_timestamp
      x := (acc_x * acc_mul / acc_div) * (981 / 100) - o.accel_bias_x
      y := -(acc_y * acc_mul / acc_div) * (981 / 100) + o.accel_bias_y
      z := -(acc_z * acc_mul / acc_div) * (981 / 100) + o.accel_bias_z }
    .ok (some (acc, gyro))

/-- `ImuDevice::parse_report` from `nreal_air.rs`: the cursor over
`packet_data[4..]` reads the u64 tick counter, the gyroscope block (u16
multiplier, u32 divisor, three i24 raw axes) and the accelerometer block
of the same shape; per axis `raw * mul / div`, then degrees→radians for
the gyroscope and `* 9.81` for the accelerometer, then this family's
`(-x, +z, +y)` sign/permutation remap with bias subtracted on x and added
on y and z; the timestamp is the tick counter divided by 1000; always one
accelerometer and one gyroscope vector, delivered together in one event. -/
def ImuDevice.parse_report {R : Type} [Field R] (piv : R)
    (gyro_bias accelerometer_bias : V3 R) (packet_data : List Nat) :
    Except AirError (AirEvent R) :=
  if packet_data.length < 42 then .error (.other "io: unexpected end of report")
  else
    let timestamp := readLEAt packet_data 4 8 / 1000
    let gyro_mul : R := (readLEAt packet_data 12 2 : Nat)
    let gyro_div : R := (readLEAt packet_data 14 4 : Nat)
    let gyro_x : R := (toSigned 24 (readLEAt packet_data 18 3) : Int)
    let gyro_y : R := (toSigned 24 (readLEAt packet_data 21 3) : Int)
    let gyro_z : R := (toSigned 24 (readLEAt packet_data 24 3) : Int)
    let gyroscope : V3 R := {
      x := -(toRadians piv (gyro_x * gyro_mul / gyro_div)) - gyro_bias.x
      y := toRadians piv (gyro_z * gyro_mul / gyro_div) + gyro_bias.y
      z := toRadians piv (gyro_y * gyro_mul / gyro_div) + gyro_bias.z }
    let acc_mul : R := (readLEAt packet_data 27 2 : Nat)
    let acc_div : R := (readLEAt packet_data 29 4 : Nat)
    let acc_x : R := (toSigned 24 (readLEAt packet_data 33 3) : Int)
    let acc_y : R := (toSigned 24 (readLEAt packet_data 36 3) : Int)
    let acc_z : R := (toSigned 24 (readLEAt packet_data 39 3) : Int)
    let accelerometer : V3 R := {
      x := -(acc_x * acc_mul / acc_div) * (981 / 100) - accelerometer_bias.x
      y := (acc_z * acc_mul / acc_div) * (981 / 100) + accelerometer_bias.y
      z := (acc_y * acc_mul / acc_div) * (981 / 100) + accelerometer_bias.z }
    .ok (.accGyro accelerometer gyroscope timestamp)

/-- The harshest possible parse pipeline: fails on any input.  Used to show
the scan never even consults the pipeline when the sentinel is absent. -/
def c3FailParse : List Nat → Except DriverError (Ov580 ℚ) :=
  fun _ => .error (.other "Invalid glasses config format (JSON parse error)")

/-- A chunked response sequence whose accumulated blob (45 zero bytes)
contains no sentinel: one marker-matching chunk declaring 45 payload
bytes, then a non-matching response that stops the accumulation loop. -/
def c3Parts : List (List Nat) :=
  [2 :: 1 :: 45 :: List.replicate 125 0, List.replicate 128 0]

/-- The bytes a text-family `serialize` writes before the checksum: header,
payload, and the placeholder timestamp field `":0:"` — exactly the range
the CRC-32 is computed over. -/
def textBody (p : Packet) : List Nat :=
  [2, 58, p.category, 58, p.cmd_id, 58] ++ p.data ++ [58, 48, 58]

/-- The serialized heartbeat frame (the value of
`Packet.serialize hbPacket`). -/
def hbFrame : List Nat := (Packet.serialize hbPacket).getD []

/-- A sequence of `read_event` calls in which the shared slot is refreshed
with a new sensor pair before every poll (the starvation scenario):
returns the list of delivered events and the final state.  Each call is
given fuel 1 because a full slot returns within the first iteration. -/
def starvedPolls (S : Type) (clock : Nat → Nat) (wOk : Nat → Bool) :
    List (S × S) → Nat → LightState S → List (LightEvent S) × LightState S
  | [], _, st => ([], st)
  | v :: vs, i, st =>
    match readEvent S clock wOk 1 i { st with slot := some v } with
    | .ok (e, st1) =>
      let out := starvedPolls S clock wOk vs (i + 1) st1
      (e :: out.1, out.2)
    | .error _ => ([], st)

/-- Unsigned `bits`-wide two's-complement encoding of a signed value, used
to build test reports whose signed fields decode back through `toSigned`. -/
def encInt (bits : Nat) (x : Int) : Nat :=
  (x % ((2 : Int) ^ bits)).toNat

/-- A synthetic OV580 IMU report with the given field values in the wire
layout read by `Ov580::receive_one_report`: marker byte 1, 43 bytes
skipped, then the gyroscope block (u64 tick, u32 multiplier, u32 divisor,
three i32 axes) and the accelerometer block of the same shape, padded to
the 128-byte read buffer. -/
def mkOv580Report (gts gmul gdiv gx gy gz ats amul adiv ax ay az : Nat) :
    List Nat :=
  [1] ++ List.replicate 43 0 ++ leBytes 8 gts ++ leBytes 4 gmul ++
    leBytes 4 gdiv ++ leBytes 4 gx ++ leBytes 4 gy ++ leBytes 4 gz ++
    leBytes 8 ats ++ leBytes 4 amul ++ leBytes 4 adiv ++ leBytes 4 ax ++
    leBytes 4 ay ++ leBytes 4 az ++ List.replicate 28 0

/-- A synthetic Nreal Air IMU report with the given field values in the
wire layout read by `ImuDevice::parse_report`: marker bytes 1, 2, two
bytes skipped, u64 tick, then the gyroscope block (u16 multiplier, u32
divisor, three i24 axes) and the accelerometer block of the same shape,
padded to the 128-byte read buffer. -/
def mkAirImuReport (ts gmul gdiv gx gy gz amul adiv ax ay az : Nat) :
    List Nat :=
  [1, 2] ++ List.replicate 2 0 ++ leBytes 8 ts ++ leBytes 2 gmul ++
    leBytes 4 gdiv ++ leBytes 3 gx ++ leBytes 3 gy ++ leBytes 3 gz ++
    leBytes 2 amul ++ leBytes 4 adiv ++ leBytes 3 ax ++ leBytes 3 ay ++
    leBytes 3 az ++ List.replicate 86 0

/-! ## Byte-level lemmas -/

lemma leBytes_length (w n : Nat) : (leBytes w n).length = w := by
  induction w generalizing n with
  | zero => rfl
  | succ w ih => simp [leBytes, ih]

lemma readLE_nil : readLE [] = 0 := rfl

lemma readLE_cons (b : Nat) (l : List Nat) :
    readLE (b :: l) = b + 256 * readLE l := rfl

lemma readLE_leBytes (w n : Nat) : readLE (leBytes w n) = n % 256 ^ w := by
  induction w generalizing n with
  | zero => simp [leBytes, readLE, Nat.mod_one]
  | succ w ih =>
    rw [leBytes, readLE_cons, ih, pow_succ']
    exact (Nat.mod_mul).symm

lemma sub_zero_take (l : List Nat) (n : Nat) : sub l 0 n = l.take n := by
  simp [sub]

lemma sub_append_ge (a rest : List Nat) (off n : Nat) (h : a.length ≤ off) :
    sub (a ++ rest) off n = sub rest (off - a.length) n := by
  have hoff : off = a.length + (off - a.length) := (Nat.add_sub_cancel' h).symm
  have hdrop : (a ++ rest).drop off = rest.drop (off - a.length) := by
    conv_lhs => rw [hoff]
    rw [List.drop_append]
  rw [sub, sub, hdrop]

lemma sub_append_exact (b rest : List Nat) (n : Nat) (h : b.length = n) :
    sub (b ++ rest) 0 n = b := by
  simp [sub, List.take_left' h]

lemma sub_append_lt (a rest : List Nat) (off n : Nat) (h : off + n ≤ a.length) :
    sub (a ++ rest) off n = sub a off n := by
  rw [sub, sub, List.drop_append_of_le_length (show off ≤ a.length by omega),
    List.take_append_of_le_length (show n ≤ (a.drop off).length by
      simp only [List.length_drop]; omega)]

lemma sub_all (l : List Nat) (n : Nat) (h : l.length = n) : sub l 0 n = l := by
  rw [sub, List.drop_zero]
  exact List.take_of_length_le h.le

/-! ## Claim C5 — totality of frame decoding

The text-family decoder is total over 64-byte buffers, but the binary
decoders slice the payload using the device-supplied length field:
`data[0..length - 17]` (`McuPacket`) and `data[0..length - 3]`
(`ImuPacket`).  A frame with the correct head byte and a zero length field
makes the subtraction underflow and the slice go out of bounds — a panic,
not a `None` result.  The claim (decode never panics, the payload slice
stays in bounds for all length values) is therefore wrong about the code,
while the spec's own description ("truncated field — decode returns no
frame") is clearly the intent: a code bug. -/

/-- Claim C5 (code_bug evidence): a 64-byte buffer with the correct head
byte (`0xfd` resp. `0xaa`) and a zero length field makes both binary
deserializers panic (out-of-bounds payload slice), instead of returning
"no frame" as the claim states. -/
theorem claimC5_binary_decoder_panics :
    McuPacket.deserialize (253 :: List.replicate 63 0) = .error () ∧
    ImuPacket.deserialize (170 :: List.replicate 63 0) = .error () := by
  constructor <;> rfl

/-! ## Claim C3 — sentinel-not-found during calibration loading

In `Ov580::read_config` the sentinel scan is a plain `for` loop: when no
window of the blob matches `\n\n{`, the loop simply completes and the
function returns `Ok(())` with the bias fields untouched (still zero).
Only a sentinel match whose following content fails UTF-8 conversion, the
blank-line split, or the JSON parse produces an error.  The claim that a
missing sentinel is fatal "exactly like JSON parse failure" is therefore
false on the code. -/

/-- Claim C3 counterexample: with a sentinel-free accumulated blob the
sentinel scan of `Ov580::read_config` succeeds (biases left at zero) even
when the downstream parse pipeline would reject everything — session
creation does not fail, contradicting the claim that sentinel-not-found is
fatal. -/
theorem claimC3_counterexample :
    Ov580.readConfigScan c3FailParse (accumConfig c3Parts) (Ov580.init ℚ) =
      .ok (Ov580.init ℚ) := by
  rfl

lemma scanAux_no_sentinel {R : Type} (parseCfg : List Nat → Except DriverError (Ov580 R))
    (config : List Nat) (idx : List Nat) (st : Ov580 R)
    (h : ∀ i ∈ idx, sub config i 3 ≠ sentinel) :
    scanAux parseCfg config idx st = .ok st := by
  induction idx with
  | nil => rfl
  | cons i rest ih =>
    rw [scanAux, if_neg (h i (by simp))]
    exact ih fun j hj => h j (by simp [hj])

lemma scanAux_first_sentinel {R : Type}
    (parseCfg : List Nat → Except DriverError (Ov580 R)) (config : List Nat)
    (idx1 idx2 : List Nat) (i : Nat) (st : Ov580 R) (e : DriverError)
    (h1 : ∀ j ∈ idx1, sub config j 3 ≠ sentinel)
    (hi : sub config i 3 = sentinel)
    (he : parseCfg (config.drop (i + 2)) = .error e) :
    scanAux parseCfg config (idx1 ++ i :: idx2) st = .error e := by
  induction idx1 with
  | nil => rw [List.nil_append, scanAux, if_pos hi, he]
  | cons j rest ih =>
    rw [List.cons_append, scanAux, if_neg (h1 j (by simp))]
    exact ih fun k hk => h1 k (by simp [hk])

/-- Claim C3 amended: a missing sentinel is _not_ fatal — the scan returns
success with the bias state untouched; an error from the parse pipeline
after the first sentinel match, by contrast, is fatal and propagates
(covering the "exactly like JSON parse failure" part of the claim for the
case where a sentinel does occur). -/
theorem claimC3_amended {R : Type}
    (parseCfg : List Nat → Except DriverError (Ov580 R)) (config : List Nat)
    (st : Ov580 R) (hlen : 4 ≤ config.length) :
    ((∀ i ∈ List.range' 0x28 (config.length - 4 - 0x28), sub config i 3 ≠ sentinel) →
      Ov580.readConfigScan parseCfg config st = .ok st) ∧
    (∀ i ∈ List.range' 0x28 (config.length - 4 - 0x28), ∀ e : DriverError,
      (∀ j ∈ List.range' 0x28 (config.length - 4 - 0x28), j < i →
        sub config j 3 ≠ sentinel) →
      sub config i 3 = sentinel →
      parseCfg (config.drop (i + 2)) = .error e →
      Ov580.readConfigScan parseCfg config st = .error e) := by
  constructor
  · intro h
    rw [Ov580.readConfigScan, if_neg (by omega)]
    exact scanAux_no_sentinel parseCfg config _ st h
  · intro i hi e hfirst hsent hparse
    rw [Ov580.readConfigScan, if_neg (by omega)]
    obtain ⟨h40, hlt⟩ := List.mem_range'_1.mp hi
    have hsplit : List.range' 0x28 (config.length - 4 - 0x28) =
        List.range' 0x28 (i - 0x28) ++ i ::
          List.range' (i + 1) (config.length - 4 - 0x28 - (i - 0x28) - 1) := by
      have h1 : List.range' 0x28 (i - 0x28) ++
          List.range' (0x28 + 1 * (i - 0x28))
            (config.length - 4 - 0x28 - (i - 0x28)) =
          List.range' 0x28 (config.length - 4 - 0x28 - (i - 0x28) + (i - 0x28)) :=
        List.range'_append _ _ _ _
      have h2 : 0x28 + 1 * (i - 0x28) = i := by omega
      have h3 : config.length - 4 - 0x28 - (i - 0x28) + (i - 0x28) =
          config.length - 4 - 0x28 := by omega
      rw [h2, h3] at h1
      rw [← h1]
      congr 1
      obtain ⟨k, hk⟩ : ∃ k, config.length - 4 - 0x28 - (i - 0x28) = k + 1 :=
        ⟨config.length - 4 - 0x28 - (i - 0x28) - 1, by omega⟩
      rw [hk, List.range'_succ]
      simp
    rw [hsplit]
    refine scanAux_first_sentinel parseCfg config _ _ i st e ?_ hsent hparse
    intro j hj
    obtain ⟨hj1, hj2⟩ := List.mem_range'_1.mp hj
    exact hfirst j (List.mem_range'_1.mpr (by omega)) (by omega)

/-- Witness for the amended C3 theorem at a concrete sentinel-free blob. -/
theorem claimC3_amended_witness :
    Ov580.readConfigScan c3FailParse (List.replicate 48 0) (Ov580.init ℚ) =
      .ok (Ov580.init ℚ) := by
  refine (claimC3_amended c3FailParse (List.replicate 48 0) (Ov580.init ℚ)
    (by decide)).1 ?_
  decide

/-! ## Claim C6 — junk tolerance of `NrealLight::read_packet` -/

lemma readPacketAux_junk_then_good (junk : List (List Nat)) (good : List Nat)
    (rest : List (Option (List Nat))) (p : Packet) (fuel : Nat)
    (hjunk : ∀ b ∈ junk, Packet.deserialize b = none)
    (hgood : Packet.deserialize good = some p)
    (hfuel : junk.length < fuel) :
    readPacketAux fuel (junk.map some ++ some good :: rest) = (.ok p, rest) := by
  induction junk generalizing fuel with
  | nil =>
    obtain ⟨f, rfl⟩ := Nat.exists_eq_succ_of_ne_zero (by omega : fuel ≠ 0)
    simp [readPacketAux, hgood]
  | cons b junk ih =>
    obtain ⟨f, rfl⟩ := Nat.exists_eq_succ_of_ne_zero (by omega : fuel ≠ 0)
    rw [List.map_cons, List.cons_append, readPacketAux, hjunk b (by simp)]
    exact ih f (fun x hx => hjunk x (List.mem_cons_of_mem b hx))
      (by simpa using hfuel)

lemma readPacketAux_all_junk (junk : List (List Nat))
    (rest : List (Option (List Nat)))
    (hjunk : ∀ b ∈ junk, Packet.deserialize b = none) :
    readPacketAux junk.length (junk.map some ++ rest) =
      (.error (.other "Received too many junk packets"), rest) := by
  induction junk with
  | nil => rfl
  | cons b junk ih =>
    rw [List.length_cons, List.map_cons, List.cons_append, readPacketAux,
      hjunk b (by simp)]
    exact ih fun x hx => hjunk x (List.mem_cons_of_mem b hx)

/-- Claim C6: `read_packet` tolerates up to 7 consecutive malformed 64-byte
buffers and still returns the first well-formed frame that follows; 8
consecutive malformed buffers exhaust the junk budget and fail with the
"Received too many junk packets" error. -/
theorem claimC6_junk_tolerance :
    (∀ (junk : List (List Nat)) (good : List Nat)
        (rest : List (Option (List Nat))) (p : Packet),
      junk.length ≤ 7 →
      (∀ b ∈ junk, Packet.deserialize b = none) →
      Packet.deserialize good = some p →
      NrealLight.read_packet (junk.map some ++ some good :: rest) = (.ok p, rest)) ∧
    (∀ (junk : List (List Nat)) (rest : List (Option (List Nat))),
      junk.length = 8 →
      (∀ b ∈ junk, Packet.deserialize b = none) →
      NrealLight.read_packet (junk.map some ++ rest) =
        (.error (.other "Received too many junk packets"), rest)) := by
  constructor
  · intro junk good rest p hlen hjunk hgood
    exact readPacketAux_junk_then_good junk good rest p 8 hjunk hgood (by omega)
  · intro junk rest hlen hjunk
    have := readPacketAux_all_junk junk rest hjunk
    rwa [hlen] at this

/-- Witness for C6: seven junk buffers before a well-formed frame still
decode; eight junk buffers fail. -/
theorem claimC6_witness :
    NrealLight.read_packet
        (List.replicate 7 (some (List.replicate 64 0)) ++
          [some [2, 58, 100, 58, 65, 58, 3]]) =
      (.ok ⟨100, 65, []⟩, []) ∧
    NrealLight.read_packet (List.replicate 8 (some (List.replicate 64 0))) =
      (.error (.other "Received too many junk packets"), []) := by
  constructor
  · have h := claimC6_junk_tolerance.1 (List.replicate 7 (List.replicate 64 0))
      [2, 58, 100, 58, 65, 58, 3] [] ⟨100, 65, []⟩ (by decide)
      (by decide) (by decide)
    simpa using h
  · have h := claimC6_junk_tolerance.2 (List.replicate 8 (List.replicate 64 0)) []
      (by decide) (by decide)
    simpa using h

/-! ## Claim C1 — command/response correlation -/

lemma readPacketAux_good (b : List Nat) (p : Packet)
    (rest : List (Option (List Nat))) (fuel : Nat)
    (hb : Packet.deserialize b = some p) :
    readPacketAux (fuel + 1) (some b :: rest) = (.ok p, rest) := by
  rw [readPacketAux, hb]

lemma runCommandAux_step (command p : Packet) (f : Nat)
    (stream rest' : List (Option (List Nat))) (pending : List Packet)
    (h : NrealLight.read_packet stream = (.ok p, rest')) :
    runCommandAux command (f + 1) stream pending =
      if textCorrelates command p then .ok (p.data, pending, rest')
      else runCommandAux command f rest' (pending ++ [p]) := by
  rw [runCommandAux, h]

lemma airRunCommandAux_step (command p : McuPacket) (f : Nat)
    (stream rest' : List (Option (List Nat))) (pending : List McuPacket)
    (h : NrealAir.read_packet stream = (.ok (some p), rest')) :
    airRunCommandAux command (f + 1) stream pending =
      if airCorrelates command p then .ok (p.data, pending, rest')
      else airRunCommandAux command f rest' (pending ++ [p]) := by
  rw [airRunCommandAux, h]

lemma runCommandAux_hits (command : Packet) (bufs : List (List Nat))
    (pre : List Packet) (bm : List Nat) (m : Packet)
    (rest : List (Option (List Nat))) (fuel : Nat) (pending : List Packet)
    (h2 : List.Forall₂ (fun b p => Packet.deserialize b = some p) bufs pre)
    (hn : ∀ p ∈ pre, ¬ textCorrelates command p)
    (hm : Packet.deserialize bm = some m)
    (hc : textCorrelates command m)
    (hf : pre.length < fuel) :
    runCommandAux command fuel (bufs.map some ++ some bm :: rest) pending =
      .ok (m.data, pending ++ pre, rest) := by
  induction h2 generalizing fuel pending with
  | nil =>
    obtain ⟨f, rfl⟩ := Nat.exists_eq_succ_of_ne_zero (by omega : fuel ≠ 0)
    rw [List.map_nil, List.nil_append,
      runCommandAux_step command m f _ rest pending
        (by rw [NrealLight.read_packet]; exact readPacketAux_good bm m rest 7 hm),
      if_pos hc, List.append_nil]
  | @cons b p bufs pre hb htail ih =>
    obtain ⟨f, rfl⟩ := Nat.exists_eq_succ_of_ne_zero (by omega : fuel ≠ 0)
    rw [List.map_cons, List.cons_append,
      runCommandAux_step command p f _ _ pending
        (by rw [NrealLight.read_packet]; exact readPacketAux_good b p _ 7 hb),
      if_neg (hn p (by simp))]
    rw [ih f (pending ++ [p]) (fun q hq => hn q (List.mem_cons_of_mem p hq))
      (by simpa using hf), List.append_assoc]
    rfl

lemma runCommandAux_exhausts (command : Packet) (bufs : List (List Nat))
    (pre : List Packet) (rest : List (Option (List Nat))) (pending : List Packet)
    (h2 : List.Forall₂ (fun b p => Packet.deserialize b = some p) bufs pre)
    (hn : ∀ p ∈ pre, ¬ textCorrelates command p) :
    runCommandAux command pre.length (bufs.map some ++ rest) pending =
      .error (.other "Received too many unrelated packets") := by
  induction h2 generalizing pending with
  | nil => rfl
  | @cons b p bufs pre hb htail ih =>
    rw [List.length_cons, List.map_cons, List.cons_append,
      runCommandAux_step command p pre.length _ _ pending
        (by rw [NrealLight.read_packet]; exact readPacketAux_good b p _ 7 hb),
      if_neg (hn p (by simp))]
    exact ih _ (fun q hq => hn q (List.mem_cons_of_mem p hq))

lemma airReadPacket_good (b : List Nat) (p : McuPacket)
    (rest : List (Option (List Nat)))
    (hb : McuPacket.deserialize b = .ok (some p)) :
    NrealAir.read_packet (some b :: rest) = (.ok (some p), rest) := by
  rw [NrealAir.read_packet, hb]

lemma airRunCommandAux_hits (command : McuPacket) (bufs : List (List Nat))
    (pre : List McuPacket) (bm : List Nat) (m : McuPacket)
    (rest : List (Option (List Nat))) (fuel : Nat) (pending : List McuPacket)
    (h2 : List.Forall₂ (fun b p => McuPacket.deserialize b = .ok (some p)) bufs pre)
    (hn : ∀ p ∈ pre, ¬ airCorrelates command p)
    (hm : McuPacket.deserialize bm = .ok (some m))
    (hc : airCorrelates command m)
    (hf : pre.length < fuel) :
    airRunCommandAux command fuel (bufs.map some ++ some bm :: rest) pending =
      .ok (m.data, pending ++ pre, rest) := by
  induction h2 generalizing fuel pending with
  | nil =>
    obtain ⟨f, rfl⟩ := Nat.exists_eq_succ_of_ne_zero (by omega : fuel ≠ 0)
    rw [List.map_nil, List.nil_append,
      airRunCommandAux_step command m f _ rest pending
        (airReadPacket_good bm m rest hm),
      if_pos hc, List.append_nil]
  | @cons b p bufs pre hb htail ih =>
    obtain ⟨f, rfl⟩ := Nat.exists_eq_succ_of_ne_zero (by omega : fuel ≠ 0)
    rw [List.map_cons, List.cons_append,
      airRunCommandAux_step command p f _ _ pending
        (airReadPacket_good b p _ hb),
      if_neg (hn p (by simp))]
    rw [ih f (pending ++ [p]) (fun q hq => hn q (List.mem_cons_of_mem p hq))
      (by simpa using hf), List.append_assoc]
    rfl

lemma airRunCommandAux_exhausts (command : McuPacket) (bufs : List (List Nat))
    (pre : List McuPacket) (rest : List (Option (List Nat)))
    (pending : List McuPacket)
    (h2 : List.Forall₂ (fun b p => McuPacket.deserialize b = .ok (some p)) bufs pre)
    (hn : ∀ p ∈ pre, ¬ airCorrelates command p) :
    airRunCommandAux command pre.length (bufs.map some ++ rest) pending =
      .error (.other "Received too many unrelated packets") := by
  induction h2 generalizing pending with
  | nil => rfl
  | @cons b p bufs pre hb htail ih =>
    rw [List.length_cons, List.map_cons, List.cons_append,
      airRunCommandAux_step command p pre.length _ _ pending
        (airReadPacket_good b p _ hb),
      if_neg (hn p (by simp))]
    exact ih _ (fun q hq => hn q (List.mem_cons_of_mem p hq))

/-- Claim C1: for both families, `run_command` over a response stream of N
well-formed non-correlating frames followed by one correlating frame
returns the correlating frame's payload and leaves exactly the N frames in
the pending queue in arrival order (N ≤ 63); a text-family frame
correlates iff its category is the request's category plus one and its
command id matches, a binary-family frame correlates iff its command id
matches; 64 well-formed non-correlating frames exhaust the attempt bound
with the "Received too many unrelated packets" error. -/
theorem claimC1_run_command_correlation :
    (∀ (command : Packet) (bufs : List (List Nat)) (pre : List Packet)
        (bm : List Nat) (m : Packet) (rest : List (Option (List Nat))),
      List.Forall₂ (fun b p => Packet.deserialize b = some p) bufs pre →
      (∀ p ∈ pre, ¬ textCorrelates command p) →
      Packet.deserialize bm = some m →
      m.category = (command.category + 1) % 256 → m.cmd_id = command.cmd_id →
      pre.length ≤ 63 →
      (command.serialize).isSome →
      NrealLight.run_command command (bufs.map some ++ some bm :: rest) [] =
        .ok (m.data, pre, rest)) ∧
    (∀ (command : Packet) (bufs : List (List Nat)) (pre : List Packet)
        (rest : List (Option (List Nat))),
      List.Forall₂ (fun b p => Packet.deserialize b = some p) bufs pre →
      (∀ p ∈ pre, ¬ textCorrelates command p) →
      pre.length = 64 →
      (command.serialize).isSome →
      NrealLight.run_command command (bufs.map some ++ rest) [] =
        .error (.other "Received too many unrelated packets")) ∧
    (∀ (adler : List Nat → Nat) (command : McuPacket) (bufs : List (List Nat))
        (pre : List McuPacket) (bm : List Nat) (m : McuPacket)
        (rest : List (Option (List Nat))),
      List.Forall₂ (fun b p => McuPacket.deserialize b = .ok (some p)) bufs pre →
      (∀ p ∈ pre, ¬ airCorrelates command p) →
      McuPacket.deserialize bm = .ok (some m) →
      m.cmd_id = command.cmd_id →
      pre.length ≤ 63 →
      command.data.length ≤ 42 →
      NrealAir.run_command adler command (bufs.map some ++ some bm :: rest) [] =
        .ok (m.data, pre, rest)) ∧
    (∀ (adler : List Nat → Nat) (command : McuPacket) (bufs : List (List Nat))
        (pre : List McuPacket) (rest : List (Option (List Nat))),
      List.Forall₂ (fun b p => McuPacket.deserialize b = .ok (some p)) bufs pre →
      (∀ p ∈ pre, ¬ airCorrelates command p) →
      pre.length = 64 →
      command.data.length ≤ 42 →
      NrealAir.run_command adler command (bufs.map some ++ rest) [] =
        .error (.other "Received too many unrelated packets")) := by
  refine ⟨?_, ?_, ?_, ?_⟩
  · intro command bufs pre bm m rest h2 hn hm hcat hcmd hlen hser
    obtain ⟨wbuf, hw⟩ := Option.isSome_iff_exists.mp hser
    rw [NrealLight.run_command, hw]
    simpa using runCommandAux_hits command bufs pre bm m rest 64 [] h2 hn hm
      ⟨hcat, hcmd⟩ (by omega)
  · intro command bufs pre rest h2 hn hlen hser
    obtain ⟨wbuf, hw⟩ := Option.isSome_iff_exists.mp hser
    rw [NrealLight.run_command, hw, ← hlen]
    exact runCommandAux_exhausts command bufs pre rest [] h2 hn
  · intro adler command bufs pre bm m rest h2 hn hm hcmd hlen h42
    rw [NrealAir.run_command, McuPacket.serialize, if_pos h42]
    simpa using airRunCommandAux_hits command bufs pre bm m rest 64 [] h2 hn hm
      hcmd (by omega)
  · intro adler command bufs pre rest h2 hn hlen h42
    rw [NrealAir.run_command, McuPacket.serialize, if_pos h42, ← hlen]
    exact airRunCommandAux_exhausts command bufs pre rest [] h2 hn

/-- Witness for C1 at concrete frames: the serial-number command `('3','C')`
with one unrelated response before the correlating `('4','C')` response
(text family), and the `0x15` serial command with one unrelated response
(binary family). -/
theorem claimC1_witness :
    NrealLight.run_command ⟨51, 67, [120]⟩
        [some [2, 58, 100, 58, 65, 58, 3], some [2, 58, 52, 58, 67, 58, 3]] [] =
      .ok ([], [⟨100, 65, []⟩], []) ∧
    NrealAir.run_command (fun _ => 0) ⟨0x15, []⟩
        [some ((253 :: List.replicate 4 0) ++ [19, 0] ++ List.replicate 57 0),
         some ((253 :: List.replicate 4 0) ++ [17, 0] ++
           (List.replicate 8 0 ++ [0x15, 0] ++ List.replicate 47 0))] [] =
      .ok ([], [⟨0, [0, 0]⟩], []) := by
  constructor
  · have h := claimC1_run_command_correlation.1 ⟨51, 67, [120]⟩
      [[2, 58, 100, 58, 65, 58, 3]] [⟨100, 65, []⟩]
      [2, 58, 52, 58, 67, 58, 3] ⟨52, 67, []⟩ []
      (List.Forall₂.cons (by decide) List.Forall₂.nil)
      (by decide) (by decide) (by decide) (by decide) (by decide) (by decide)
    simpa using h
  · have h := claimC1_run_command_correlation.2.2.1 (fun _ => 0) ⟨0x15, []⟩
      [(253 :: List.replicate 4 0) ++ [19, 0] ++ List.replicate 57 0] [⟨0, [0, 0]⟩]
      ((253 :: List.replicate 4 0) ++ [17, 0] ++
        (List.replicate 8 0 ++ [0x15, 0] ++ List.replicate 47 0)) ⟨0x15, []⟩ []
      (List.Forall₂.cons (by rfl) List.Forall₂.nil)
      (by decide) (by rfl) (by decide) (by decide) (by decide)
    simpa using h

/-! ## Claims C4 and C8 — heartbeat scheduling and event-poll priority -/

lemma hb_serialize_eq : Packet.serialize hbPacket = some hbFrame := rfl

lemma readEventRest_lastHeartbeat (S : Type) (st : LightState S) :
    (readEventRest S st).2.lastHeartbeat = st.lastHeartbeat := by
  unfold readEventRest
  split
  · rfl
  · split
    · rfl
    · split
      · rfl
      · split <;> rfl

lemma readEventIter_writes_le (S : Type) (now : Nat) (w : Bool)
    (st : LightState S) : (readEventIter S now w st).2.2.length ≤ 1 := by
  unfold readEventIter
  split
  · split
    · simp
    · split <;> simp
  · simp

lemma readEventIter_hb_fires (S : Type) (now : Nat) (st : LightState S)
    (h : 250 < now - st.lastHeartbeat) :
    (readEventIter S now true st).2.2 = [hbFrame] ∧
    (readEventIter S now true st).2.1.lastHeartbeat = now := by
  rw [readEventIter, if_pos h, hb_serialize_eq]
  exact ⟨rfl, readEventRest_lastHeartbeat S _⟩

lemma readEventIter_hb_skip (S : Type) (now : Nat) (w : Bool)
    (st : LightState S) (h : ¬ 250 < now - st.lastHeartbeat) :
    (readEventIter S now w st).2.2 = [] ∧
    (readEventIter S now w st).2.1.lastHeartbeat = st.lastHeartbeat := by
  rw [readEventIter, if_neg h]
  exact ⟨rfl, readEventRest_lastHeartbeat S _⟩

/-- Claim C4: in `NrealLight::read_event`, (1) when more than 250 ms
elapsed since the last heartbeat and the USB write succeeds, exactly the
one serialized keep-alive frame is written and the last-heartbeat
timestamp is set to the current instant — no acknowledgment is ever read;
(2) a failing heartbeat write makes `read_event` fail with the
(transport-fatal) USB error, the timestamp not advancing; (3) when 250 ms
have not elapsed, nothing is written and the timestamp is unchanged;
(4) two consecutive polls less than 250 ms apart write at most one
heartbeat frame between them. -/
theorem claimC4_heartbeat :
    (∀ (S : Type) (now : Nat) (st : LightState S),
      250 < now - st.lastHeartbeat →
      Packet.serialize hbPacket = some hbFrame ∧
      (readEventIter S now true st).2.2 = [hbFrame] ∧
      (readEventIter S now true st).2.1.lastHeartbeat = now) ∧
    (∀ (S : Type) (now : Nat) (st : LightState S),
      250 < now - st.lastHeartbeat →
      readEventIter S now false st = (.fail .usbWrite, st, [])) ∧
    (∀ (S : Type) (now : Nat) (w : Bool) (st : LightState S),
      ¬ 250 < now - st.lastHeartbeat →
      (readEventIter S now w st).2.2 = [] ∧
      (readEventIter S now w st).2.1.lastHeartbeat = st.lastHeartbeat) ∧
    (∀ (S : Type) (t1 t2 : Nat) (w1 w2 : Bool) (st : LightState S),
      t2 - t1 < 250 →
      (readEventIter S t1 w1 st).2.2.length +
        (readEventIter S t2 w2 (readEventIter S t1 w1 st).2.1).2.2.length ≤ 1) := by
  refine ⟨?_, ?_, ?_, ?_⟩
  · intro S now st h
    exact ⟨rfl, readEventIter_hb_fires S now st h⟩
  · intro S now st h
    rw [readEventIter, if_pos h, hb_serialize_eq]
    rfl
  · intro S now w st h
    exact readEventIter_hb_skip S now w st h
  · intro S t1 t2 w1 w2 st hlt
    by_cases h1 : 250 < t1 - st.lastHeartbeat
    · cases w1 with
      | true =>
        obtain ⟨hw, hts⟩ := readEventIter_hb_fires S t1 st h1
        have h2 : ¬ 250 < t2 - (readEventIter S t1 true st).2.1.lastHeartbeat := by
          rw [hts]; omega
        obtain ⟨hw2, _⟩ := readEventIter_hb_skip S t2 w2 _ h2
        rw [hw, hw2]
        simp
      | false =>
        rw [readEventIter, if_pos h1, hb_serialize_eq]
        have := readEventIter_writes_le S t2 w2 st
        simpa using this
    · obtain ⟨hw, _⟩ := readEventIter_hb_skip S t1 w1 st h1
      rw [hw]
      simpa using readEventIter_writes_le S t2 w2 _

lemma readEvent_slot (S : Type) (clock : Nat → Nat) (wOk : Nat → Bool)
    (fuel i : Nat) (st : LightState S) (a g : S)
    (hslot : st.slot = some (a, g)) (hw : wOk i = true) :
    readEvent S clock wOk (fuel + 1) i st =
      .ok (.accGyro a g,
        ⟨if 250 < clock i - st.lastHeartbeat then clock i else st.lastHeartbeat,
         none, st.arcCount, st.pending, st.stream⟩) := by
  rw [readEvent]
  by_cases h : 250 < clock i - st.lastHeartbeat
  · simp [readEventIter, h, hw, hb_serialize_eq, readEventRest, hslot]
  · simp [readEventIter, h, readEventRest, hslot]

/-- Claim C8: (1) whenever the shared sensor slot holds a pair,
`read_event` immediately returns it as a motion event — the pending queue,
the transport stream and the thread-liveness count are not even consulted
(the returned state keeps them verbatim, and the result does not depend on
`arcCount`), the slot is emptied, and only the heartbeat stanza runs
first; (2) consequently a session whose slot is refreshed before every
poll delivers exactly the motion events, never a discrete
key/proximity/ambient event, no matter what discrete-event packets wait in
the pending queue. -/
theorem claimC8_slot_priority :
    (∀ (S : Type) (clock : Nat → Nat) (wOk : Nat → Bool) (fuel i : Nat)
        (st : LightState S) (a g : S),
      st.slot = some (a, g) → wOk i = true →
      readEvent S clock wOk (fuel + 1) i st =
        .ok (.accGyro a g,
          ⟨if 250 < clock i - st.lastHeartbeat then clock i else st.lastHeartbeat,
           none, st.arcCount, st.pending, st.stream⟩)) ∧
    (∀ (S : Type) (clock : Nat → Nat) (wOk : Nat → Bool) (vs : List (S × S))
        (i : Nat) (st : LightState S),
      (∀ j, wOk j = true) →
      (starvedPolls S clock wOk vs i st).1 =
        vs.map (fun v => LightEvent.accGyro v.1 v.2) ∧
      (starvedPolls S clock wOk vs i st).2.pending = st.pending ∧
      (starvedPolls S clock wOk vs i st).2.stream = st.stream) := by
  constructor
  · intro S clock wOk fuel i st a g hslot hw
    exact readEvent_slot S clock wOk fuel i st a g hslot hw
  · intro S clock wOk vs
    induction vs with
    | nil => intro i st hw; exact ⟨rfl, rfl, rfl⟩
    | cons v vrest ih =>
      intro i st hw
      rw [starvedPolls,
        readEvent_slot S clock wOk 0 i { st with slot := some v } v.1 v.2 rfl
          (hw i)]
      obtain ⟨h1, h2, h3⟩ := ih (i + 1) _ hw
      exact ⟨by rw [List.map_cons, ← h1], by rw [h2], by rw [h3]⟩

/-- Witness for C4 and C8 statements with hypotheses, at a concrete state:
one poll at `t = 300` over a state last heartbeated at 0 with a full slot
and a pending discrete-event packet. -/
theorem claimC8_witness :
    readEvent Nat (fun _ => 300) (fun _ => true) 1 0
        ⟨0, some (7, 9), 2, [⟨53, 75, [85, 80]⟩], []⟩ =
      .ok (.accGyro 7 9, ⟨300, none, 2, [⟨53, 75, [85, 80]⟩], []⟩) := by
  have h := claimC8_slot_priority.1 Nat (fun _ => 300) (fun _ => true) 0 0
    ⟨0, some (7, 9), 2, [⟨53, 75, [85, 80]⟩], []⟩ 7 9 rfl rfl
  simpa using h

/-- Witness for C4 at concrete instants: a poll at 300 ms after a last
heartbeat at 0 writes the heartbeat frame and advances the timestamp. -/
theorem claimC4_witness :
    (readEventIter Nat 300 true ⟨0, none, 2, [], []⟩).2.2 = [hbFrame] ∧
    (readEventIter Nat 300 true ⟨0, none, 2, [], []⟩).2.1.lastHeartbeat = 300 := by
  have h := claimC4_heartbeat.1 Nat 300 ⟨0, none, 2, [], []⟩ (by decide)
  exact ⟨h.2.1, h.2.2⟩

/-! ## Claim C10 — key-press classification in the HID family -/

/-- Claim C10: a control-channel frame with command id `0x6c05` is
classified into `KeyPress(data[0] - 1)` whenever its payload is nonempty
with a nonzero first byte; an empty payload (out-of-bounds `data[0]`) or a
zero first byte (`u8` subtraction underflow) makes `read_event` panic
instead of returning a typed error. -/
theorem claimC10_keypress_classification :
    (∀ (R : Type) (d0 : Nat) (ds : List Nat) (ps : List McuPacket)
        (stream : List (Option (List Nat))),
      d0 ≠ 0 →
      NrealAir.readMcuPacket R (⟨0x6c05, d0 :: ds⟩ :: ps) stream =
        .ok (some (.keyPress (d0 - 1)), ps, stream)) ∧
    (∀ (R : Type) (ps : List McuPacket) (stream : List (Option (List Nat))),
      NrealAir.readMcuPacket R (⟨0x6c05, []⟩ :: ps) stream = .error .panic) ∧
    (∀ (R : Type) (ds : List Nat) (ps : List McuPacket)
        (stream : List (Option (List Nat))),
      NrealAir.readMcuPacket R (⟨0x6c05, 0 :: ds⟩ :: ps) stream =
        .error .panic) := by
  refine ⟨?_, ?_, ?_⟩
  · intro R d0 ds ps stream hd0
    simp [NrealAir.readMcuPacket, classifyMcu, hd0]
  · intro R ps stream
    simp [NrealAir.readMcuPacket, classifyMcu]
  · intro R ds ps stream
    simp [NrealAir.readMcuPacket, classifyMcu]

/-- Witness for C10: a pending `0x6c05` frame with first payload byte 3
yields `KeyPress 2`. -/
theorem claimC10_witness :
    NrealAir.readMcuPacket ℚ [⟨0x6c05, [3]⟩] [] =
      .ok (some (.keyPress 2), [], []) := by
  have h := claimC10_keypress_classification.1 ℚ 3 [] [] [] (by decide)
  simpa using h

/-! ## Hexadecimal rendering and CRC bounds (for claims C2 and C9) -/

set_option maxRecDepth 8192 in
lemma crctable_getD_lt (i : Nat) : CRCTABLE.getD i 0 < 2 ^ 32 := by
  by_cases h : i < CRCTABLE.length
  · have hall : ∀ x ∈ CRCTABLE, x < 2 ^ 32 := by decide
    refine hall _ ?_
    rw [List.getD_eq_getElem CRCTABLE 0 h]
    exact List.getElem_mem h
  · rw [List.getD_eq_default CRCTABLE 0 (by omega)]
    norm_num

lemma crc32Step_lt (r b : Nat) (hr : r < 2 ^ 32) : crc32Step r b < 2 ^ 32 :=
  Nat.xor_lt_two_pow (lt_of_le_of_lt (Nat.div_le_self r 256) hr)
    (crctable_getD_lt _)

lemma crc32_foldl_lt (l : List Nat) (r : Nat) (hr : r < 2 ^ 32) :
    l.foldl crc32Step r < 2 ^ 32 := by
  induction l generalizing r with
  | nil => exact hr
  | cons b l ih => exact ih _ (crc32Step_lt r b hr)

lemma crc32_lt (buf : List Nat) : crc32 buf < 2 ^ 32 :=
  Nat.xor_lt_two_pow (crc32_foldl_lt buf _ (by norm_num)) (by norm_num)

lemma toHex_length_le (n : Nat) (h : n < 2 ^ 32) : (toHex n).length ≤ 8 := by
  unfold toHex
  by_cases h0 : n = 0
  · simp [h0]
  · rw [if_neg h0]
    simp only [List.length_map, List.length_reverse]
    rw [Nat.digits_len 16 n (by norm_num) h0]
    have : Nat.log 16 n < 8 :=
      Nat.log_lt_of_lt_pow h0 (by norm_num at h ⊢; omega)
    omega

lemma hex8_length (n : Nat) (h : n < 2 ^ 32) : (hex8 n).length = 8 := by
  have := toHex_length_le n h
  simp only [hex8, List.length_append, List.length_replicate]
  omega

lemma toHex_mem (n b : Nat) (hb : b ∈ toHex n) :
    (48 ≤ b ∧ b ≤ 57) ∨ (97 ≤ b ∧ b ≤ 102) := by
  unfold toHex at hb
  by_cases h0 : n = 0
  · rw [if_pos h0] at hb
    simp at hb
    omega
  · rw [if_neg h0] at hb
    simp only [List.mem_map, List.mem_reverse] at hb
    obtain ⟨d, hd, rfl⟩ := hb
    have hd16 : d < 16 := Nat.digits_lt_base (by norm_num) hd
    unfold hexDigit
    by_cases hlt : d < 10
    · rw [if_pos hlt]; omega
    · rw [if_neg hlt]; omega

lemma hex8_mem (n b : Nat) (hb : b ∈ hex8 n) :
    b = 32 ∨ (48 ≤ b ∧ b ≤ 57) ∨ (97 ≤ b ∧ b ≤ 102) := by
  rcases List.mem_append.mp hb with h | h
  · exact Or.inl (List.eq_of_mem_replicate h)
  · exact Or.inr (toHex_mem n b h)

lemma hex8_no_colon (n b : Nat) (hb : b ∈ hex8 n) : b ≠ 58 := by
  rcases hex8_mem n b hb with h | h | h <;> omega

lemma hex8_no_etx (n b : Nat) (hb : b ∈ hex8 n) : b ≠ 3 := by
  rcases hex8_mem n b hb with h | h | h <;> omega

/-! ## Claim C9 — serialization always yields one 64-byte buffer -/

lemma textBody_length (p : Packet) : (textBody p).length = p.data.length + 9 := by
  simp [textBody]

lemma text_serialize_eq (p : Packet) (h45 : p.data.length ≤ 45) :
    p.serialize = some (textBody p ++ hex8 (crc32 (textBody p)) ++ [58, 3] ++
      List.replicate (64 - (p.data.length + 19)) 0) := by
  have hhex : (hex8 (crc32 (textBody p))).length = 8 :=
    hex8_length _ (crc32_lt _)
  have hlen := textBody_length p
  rw [Packet.serialize]
  simp only [cwrite, List.nil_append, List.length_nil, Nat.sub_zero]
  rw [List.take_of_length_le (l := [2, 58, p.category, 58, p.cmd_id, 58])
    (by simp)]
  rw [List.take_of_length_le (l := p.data) (by simp; omega)]
  rw [List.take_of_length_le (l := [58, 48, 58]) (by simp; omega)]
  rw [List.append_assoc]
  rw [show [2, 58, p.category, 58, p.cmd_id, 58] ++ (p.data ++ [58, 48, 58]) =
    textBody p from rfl]
  rw [if_pos (show (textBody p).length + 8 ≤ 64 by omega)]
  rw [List.take_of_length_le (l := [58, 3])
    (by simp only [List.length_append, hhex, hlen, List.length_cons,
      List.length_nil]; omega)]
  simp only [List.append_assoc, List.length_append, hhex, hlen,
    List.length_cons, List.length_nil]

/-- Claim C9: every serializer of every channel produces exactly one
64-byte buffer whenever the payload fits the capacity minus the framing
overhead — 45 bytes for the text family, 42 for the binary control
channel, 56 for the binary telemetry-control channel — never a shorter,
longer, or absent buffer. -/
theorem claimC9_fixed_size_serialization :
    (∀ p : Packet, p.data.length ≤ 45 →
      ∃ buf, p.serialize = some buf ∧ buf.length = 64) ∧
    (∀ (adler : List Nat → Nat) (p : McuPacket), p.data.length ≤ 42 →
      ∃ buf, McuPacket.serialize adler p = .ok buf ∧ buf.length = 64) ∧
    (∀ (adler : List Nat → Nat) (p : ImuPacket), p.data.length ≤ 56 →
      ∃ buf, ImuPacket.serialize adler p = .ok buf ∧ buf.length = 64) := by
  refine ⟨?_, ?_, ?_⟩
  · intro p h45
    refine ⟨_, text_serialize_eq p h45, ?_⟩
    have hhex : (hex8 (crc32 (textBody p))).length = 8 :=
      hex8_length _ (crc32_lt _)
    simp only [List.length_append, List.length_cons, List.length_nil,
      List.length_replicate, hhex, textBody_length]
    omega
  · intro adler p h42
    refine ⟨_, by rw [McuPacket.serialize, if_pos h42], ?_⟩
    simp only [List.length_append, List.length_cons, List.length_nil,
      List.length_replicate, leBytes_length]
    omega
  · intro adler p h56
    refine ⟨_, by rw [ImuPacket.serialize, if_pos h56], ?_⟩
    simp only [List.length_append, List.length_cons, List.length_nil,
      List.length_replicate, leBytes_length]
    omega

/-- Witness for C9 on concrete frames of each codec. -/
theorem claimC9_witness :
    (∃ buf, Packet.serialize ⟨64, 75, [120]⟩ = some buf ∧ buf.length = 64) ∧
    (∃ buf, McuPacket.serialize (fun _ => 0) ⟨0x7, []⟩ = .ok buf ∧
      buf.length = 64) ∧
    (∃ buf, ImuPacket.serialize (fun _ => 0) ⟨0x19, [1]⟩ = .ok buf ∧
      buf.length = 64) :=
  ⟨claimC9_fixed_size_serialization.1 ⟨64, 75, [120]⟩ (by decide),
   claimC9_fixed_size_serialization.2.1 (fun _ => 0) ⟨0x7, []⟩ (by decide),
   claimC9_fixed_size_serialization.2.2 (fun _ => 0) ⟨0x19, [1]⟩ (by decide)⟩

/-! ## Claim C2 — codec round trips -/

lemma firstETX_append (l r : List Nat) (h : (3 : Nat) ∉ l) :
    firstETX (l ++ 3 :: r) = some l.length := by
  induction l with
  | nil => simp [firstETX]
  | cons b l ih =>
    have hb : b ≠ 3 := fun hb => h (by simp [hb])
    rw [List.cons_append, firstETX, if_neg hb,
      ih fun hc => h (List.mem_cons_of_mem b hc)]
    simp

lemma splitColon_chunk (c rest : List Nat) (h : (58 : Nat) ∉ c) :
    splitColon (c ++ 58 :: rest) = c :: splitColon rest := by
  induction c with
  | nil => simp [splitColon]
  | cons b c ih =>
    have hb : b ≠ 58 := fun hb => h (by simp [hb])
    rw [List.cons_append, splitColon, if_neg hb,
      ih fun hc => h (List.mem_cons_of_mem b hc)]

lemma text_decode_frame (cat cmd : Nat) (data hex : List Nat) (k : Nat)
    (hcat58 : cat ≠ 58) (hcat3 : cat ≠ 3) (hcmd58 : cmd ≠ 58) (hcmd3 : cmd ≠ 3)
    (hdata : ∀ b ∈ data, b ≠ 58 ∧ b ≠ 3)
    (hhex : ∀ b ∈ hex, b ≠ 58 ∧ b ≠ 3) :
    Packet.deserialize ([2, 58, cat, 58, cmd, 58] ++ data ++ [58, 48, 58] ++
      hex ++ [58, 3] ++ List.replicate k 0) = some ⟨cat, cmd, data⟩ := by
  set I : List Nat :=
    58 :: cat :: 58 :: cmd :: 58 :: (data ++ 58 :: 48 :: 58 :: (hex ++ [58]))
    with hI
  have hbuf : [2, 58, cat, 58, cmd, 58] ++ data ++ [58, 48, 58] ++
      hex ++ [58, 3] ++ List.replicate k 0 = 2 :: (I ++ 3 :: List.replicate k 0) := by
    rw [hI]; simp
  have hnotin : (3 : Nat) ∉ I := by
    rw [hI]
    intro hm
    simp only [List.mem_cons, List.mem_append] at hm
    rcases hm with h | h | h | h | h | h | h | h | h | h | h
    · omega
    · exact hcat3 h.symm
    · omega
    · exact hcmd3 h.symm
    · omega
    · exact (hdata 3 h).2 rfl
    · omega
    · omega
    · omega
    · exact (hhex 3 h).2 rfl
    · simp at h
  have hETX : firstETX (2 :: (I ++ 3 :: List.replicate k 0)) =
      some (I.length + 1) := by
    rw [firstETX, if_neg (by omega), firstETX_append I _ hnotin]
    rfl
  have hsplitI : splitColon I = [] :: [cat] :: [cmd] :: data :: [48] ::
      hex :: [[]] := by
    rw [hI]
    rw [show (58 : Nat) :: cat :: 58 :: cmd :: 58 ::
        (data ++ 58 :: 48 :: 58 :: (hex ++ [58])) =
      ([] : List Nat) ++ 58 :: ([cat] ++ 58 :: ([cmd] ++ 58 ::
        (data ++ 58 :: ([48] ++ 58 :: (hex ++ 58 :: []))))) from by simp]
    rw [splitColon_chunk [] _ (by simp),
      splitColon_chunk [cat] _ (by simpa using Ne.symm hcat58),
      splitColon_chunk [cmd] _ (by simpa using Ne.symm hcmd58),
      splitColon_chunk data _ (fun hm => (hdata 58 hm).1 rfl),
      splitColon_chunk [48] _ (by simp),
      splitColon_chunk hex _ (fun hm => (hhex 58 hm).1 rfl)]
    rfl
  rw [hbuf]
  simp only [Packet.deserialize, hETX]
  rw [if_neg (by omega)]
  simp only [List.drop_succ_cons, List.drop_zero, Nat.add_sub_cancel,
    List.take_left, hsplitI, List.head?_cons]

lemma mcu_decode_frame (ck cmd : Nat) (data : List Nat)
    (hcmd : cmd < 65536) (h42 : data.length ≤ 42) :
    McuPacket.deserialize ([0xfd] ++ leBytes 4 ck ++
      leBytes 2 (data.length + 17) ++ leBytes 4 0x1337 ++ leBytes 4 0 ++
      leBytes 2 cmd ++ List.replicate 5 0 ++
      (data ++ List.replicate (42 - data.length) 0)) = .ok (some ⟨cmd, data⟩) := by
  simp only [McuPacket.deserialize, sub_append_lt, sub_append_ge, sub_all,
    leBytes_length, List.length_append, List.length_cons, List.length_nil,
    List.length_replicate, readLE_leBytes, readLE_cons, readLE_nil,
    Nat.reduceAdd, Nat.reduceSub, Nat.reduceLeDiff,
    show (256 : Nat) ^ 2 = 65536 from by norm_num,
    show (256 : Nat) ^ 1 = 256 from by norm_num,
    Nat.mod_eq_of_lt (show data.length + 17 < 65536 by omega),
    Nat.mod_eq_of_lt hcmd]
  rw [if_neg (by omega), if_pos ⟨trivial, h42⟩, Nat.add_sub_cancel,
    sub_append_lt data _ 0 data.length (by omega), sub_all data _ rfl]

lemma imu_decode_frame (ck cmd : Nat) (data : List Nat)
    (hcmd : cmd < 256) (h56 : data.length ≤ 56) :
    ImuPacket.deserialize ([0xaa] ++ leBytes 4 ck ++
      leBytes 2 (data.length + 3) ++ [cmd % 256] ++
      (data ++ List.replicate (56 - data.length) 0)) = .ok (some ⟨cmd, data⟩) := by
  simp only [ImuPacket.deserialize, sub_append_lt, sub_append_ge, sub_all,
    leBytes_length, List.length_append, List.length_cons, List.length_nil,
    List.length_replicate, readLE_leBytes, readLE_cons, readLE_nil,
    Nat.add_zero, Nat.reduceAdd, Nat.reduceSub, Nat.reduceLeDiff, Nat.reduceMul,
    show (256 : Nat) ^ 2 = 65536 from by norm_num,
    Nat.mod_eq_of_lt (show data.length + 3 < 65536 by omega),
    Nat.mod_eq_of_lt hcmd]
  rw [if_neg (by omega), if_pos ⟨trivial, h56⟩, Nat.add_sub_cancel,
    sub_append_lt data _ 0 data.length (by omega), sub_all data _ rfl]

/-- Claim C2: decode ∘ encode is the identity on every in-range frame —
text family: category and command id are single non-delimiter bytes (not
`':'`, not ETX), the payload holds no `':'` or ETX byte and fits the
64-byte buffer (≤ 45 bytes); binary family: the payload is at most 42
bytes (`McuPacket`) resp. 56 bytes (`ImuPacket`) and the command id fits
its field. -/
theorem claimC2_roundtrip :
    (∀ p : Packet,
      p.category < 256 → p.category ≠ 58 → p.category ≠ 3 →
      p.cmd_id < 256 → p.cmd_id ≠ 58 → p.cmd_id ≠ 3 →
      (∀ b ∈ p.data, b < 256 ∧ b ≠ 58 ∧ b ≠ 3) →
      p.data.length ≤ 45 →
      p.serialize.bind Packet.deserialize = some p) ∧
    (∀ (adler : List Nat → Nat) (p : McuPacket),
      p.cmd_id < 65536 → (∀ b ∈ p.data, b < 256) → p.data.length ≤ 42 →
      (McuPacket.serialize adler p).bind McuPacket.deserialize = .ok (some p)) ∧
    (∀ (adler : List Nat → Nat) (p : ImuPacket),
      p.cmd_id < 256 → (∀ b ∈ p.data, b < 256) → p.data.length ≤ 56 →
      (ImuPacket.serialize adler p).bind ImuPacket.deserialize = .ok (some p)) := by
  refine ⟨?_, ?_, ?_⟩
  · rintro ⟨cat, cmd, data⟩ hcat hcat58 hcat3 hcmd hcmd58 hcmd3 hdata h45
    rw [text_serialize_eq ⟨cat, cmd, data⟩ h45, Option.some_bind]
    have hd := text_decode_frame cat cmd data
      (hex8 (crc32 (textBody ⟨cat, cmd, data⟩))) (64 - (data.length + 19))
      hcat58 hcat3 hcmd58 hcmd3 (fun b hb => ⟨(hdata b hb).2.1, (hdata b hb).2.2⟩)
      (fun b hb => ⟨hex8_no_colon _ b hb, hex8_no_etx _ b hb⟩)
    simpa [textBody] using hd
  · rintro adler ⟨cmd, data⟩ hcmd hbytes h42
    rw [McuPacket.serialize, if_pos h42]
    simpa using mcu_decode_frame _ cmd data hcmd h42
  · rintro adler ⟨cmd, data⟩ hcmd hbytes h56
    rw [ImuPacket.serialize, if_pos h56]
    simpa using imu_decode_frame _ cmd data hcmd h56

/-- Witness for C2 at a concrete frame of each codec. -/
theorem claimC2_witness :
    (Packet.serialize ⟨51, 67, [49]⟩).bind Packet.deserialize =
      some ⟨51, 67, [49]⟩ ∧
    (McuPacket.serialize (fun _ => 0) ⟨0x7, [1]⟩).bind McuPacket.deserialize =
      .ok (some ⟨0x7, [1]⟩) ∧
    (ImuPacket.serialize (fun _ => 0) ⟨0x19, [1]⟩).bind ImuPacket.deserialize =
      .ok (some ⟨0x19, [1]⟩) :=
  ⟨claimC2_roundtrip.1 ⟨51, 67, [49]⟩ (by decide) (by decide) (by decide)
      (by decide) (by decide) (by decide) (by decide) (by decide),
   claimC2_roundtrip.2.1 (fun _ => 0) ⟨0x7, [1]⟩ (by decide) (by decide)
      (by decide),
   claimC2_roundtrip.2.2 (fun _ => 0) ⟨0x19, [1]⟩ (by decide) (by decide)
      (by decide)⟩

/-! ## Claim C7 — sensor normalization -/

lemma encInt32_lt (x : Int) : encInt 32 x < 2 ^ 32 := by
  unfold encInt
  simp only [show ((2 : Int) ^ 32) = 4294967296 from by norm_num,
    show ((2 : Nat) ^ 32) = 4294967296 from by norm_num]
  omega

lemma encInt24_lt (x : Int) : encInt 24 x < 2 ^ 24 := by
  unfold encInt
  simp only [show ((2 : Int) ^ 24) = 16777216 from by norm_num,
    show ((2 : Nat) ^ 24) = 16777216 from by norm_num]
  omega

lemma toSigned_encInt32 (x : Int) (h1 : -(2 ^ 31) ≤ x) (h2 : x < 2 ^ 31) :
    toSigned 32 (encInt 32 x) = x := by
  unfold toSigned encInt
  simp only [show ((2 : Int) ^ 32) = 4294967296 from by norm_num,
    show ((2 : Nat) ^ (32 - 1)) = 2147483648 from by norm_num,
    show ((2 : Int) ^ 31) = 2147483648 from by norm_num,
    show ((2 : Nat) ^ 32) = 4294967296 from by norm_num] at h1 h2 ⊢
  by_cases h : (x % 4294967296).toNat < 2147483648
  · rw [if_pos h]; omega
  · rw [if_neg h]
    omega

lemma toSigned_encInt24 (x : Int) (h1 : -(2 ^ 23) ≤ x) (h2 : x < 2 ^ 23) :
    toSigned 24 (encInt 24 x) = x := by
  unfold toSigned encInt
  simp only [show ((2 : Int) ^ 24) = 16777216 from by norm_num,
    show ((2 : Nat) ^ (24 - 1)) = 8388608 from by norm_num,
    show ((2 : Int) ^ 23) = 8388608 from by norm_num,
    show ((2 : Nat) ^ 24) = 16777216 from by norm_num] at h1 h2 ⊢
  by_cases h : (x % 16777216).toNat < 8388608
  · rw [if_pos h]; omega
  · rw [if_neg h]
    omega

lemma mkOv580Report_length (gts gmul gdiv gx gy gz ats amul adiv ax ay az : Nat) :
    (mkOv580Report gts gmul gdiv gx gy gz ats amul adiv ax ay az).length = 128 := by
  simp [mkOv580Report, leBytes_length]

lemma mkOv580Report_getD (gts gmul gdiv gx gy gz ats amul adiv ax ay az : Nat) :
    (mkOv580Report gts gmul gdiv gx gy gz ats amul adiv ax ay az).getD 0 0 = 1 := by
  simp [mkOv580Report]

lemma mkAirImuReport_length (ts gmul gdiv gx gy gz amul adiv ax ay az : Nat) :
    (mkAirImuReport ts gmul gdiv gx gy gz amul adiv ax ay az).length = 128 := by
  simp [mkAirImuReport, leBytes_length]

/-- Claim C7: for every valid raw sensor report of either family, decoding
yields exactly one accelerometer sample paired with one gyroscope sample,
where per axis the physical value is `raw * mul / div`, gyroscope axes are
converted degrees→radians (multiplication by `π / 180`) and accelerometer
axes are multiplied by 9.81, followed by the family's fixed
sign/permutation remap and per-axis add-or-subtract bias correction
(OV580: `(+x, -y, -z)` with bias subtracted on x and added on y, z; Air:
`(-x, +z, +y)` with bias subtracted on x and added on y, z), and the
reported timestamp is the raw tick counter divided by 1000 (integer
division). -/
theorem claimC7_sensor_normalization :
    (∀ (piv : ℝ) (o : Ov580 ℝ) (gts gmul gdiv : Nat) (gx gy gz : Int)
        (ats amul adiv : Nat) (ax ay az : Int),
      gts < 2 ^ 64 → gmul < 2 ^ 32 → gdiv < 2 ^ 32 →
      -(2 ^ 31) ≤ gx → gx < 2 ^ 31 → -(2 ^ 31) ≤ gy → gy < 2 ^ 31 →
      -(2 ^ 31) ≤ gz → gz < 2 ^ 31 →
      ats < 2 ^ 64 → amul < 2 ^ 32 → adiv < 2 ^ 32 →
      -(2 ^ 31) ≤ ax → ax < 2 ^ 31 → -(2 ^ 31) ≤ ay → ay < 2 ^ 31 →
      -(2 ^ 31) ≤ az → az < 2 ^ 31 →
      Ov580.receive_one_report piv o
          (mkOv580Report gts gmul gdiv (encInt 32 gx) (encInt 32 gy)
            (encInt 32 gz) ats amul adiv (encInt 32 ax) (encInt 32 ay)
            (encInt 32 az)) =
        .ok (some (
          ⟨ats / 1000,
            ((ax : ℝ) * (amul : ℝ) / (adiv : ℝ)) * (981 / 100) - o.accel_bias_x,
            -((ay : ℝ) * (amul : ℝ) / (adiv : ℝ)) * (981 / 100) + o.accel_bias_y,
            -((az : ℝ) * (amul : ℝ) / (adiv : ℝ)) * (981 / 100) + o.accel_bias_z⟩,
          ⟨gts / 1000,
            toRadians piv ((gx : ℝ) * (gmul : ℝ) / (gdiv : ℝ)) - o.gyro_bias_x,
            -(toRadians piv ((gy : ℝ) * (gmul : ℝ) / (gdiv : ℝ))) + o.gyro_bias_y,
            -(toRadians piv ((gz : ℝ) * (gmul : ℝ) / (gdiv : ℝ))) + o.gyro_bias_z⟩))) ∧
    (∀ (piv : ℝ) (gyro_bias accelerometer_bias : V3 ℝ) (ts gmul gdiv : Nat)
        (gx gy gz : Int) (amul adiv : Nat) (ax ay az : Int),
      ts < 2 ^ 64 → gmul < 2 ^ 16 → gdiv < 2 ^ 32 →
      -(2 ^ 23) ≤ gx → gx < 2 ^ 23 → -(2 ^ 23) ≤ gy → gy < 2 ^ 23 →
      -(2 ^ 23) ≤ gz → gz < 2 ^ 23 →
      amul < 2 ^ 16 → adiv < 2 ^ 32 →
      -(2 ^ 23) ≤ ax → ax < 2 ^ 23 → -(2 ^ 23) ≤ ay → ay < 2 ^ 23 →
      -(2 ^ 23) ≤ az → az < 2 ^ 23 →
      ImuDevice.parse_report piv gyro_bias accelerometer_bias
          (mkAirImuReport ts gmul gdiv (encInt 24 gx) (encInt 24 gy)
            (encInt 24 gz) amul adiv (encInt 24 ax) (encInt 24 ay)
            (encInt 24 az)) =
        .ok (.accGyro
          ⟨-((ax : ℝ) * (amul : ℝ) / (adiv : ℝ)) * (981 / 100) - accelerometer_bias.x,
            ((az : ℝ) * (amul : ℝ) / (adiv : ℝ)) * (981 / 100) + accelerometer_bias.y,
            ((ay : ℝ) * (amul : ℝ) / (adiv : ℝ)) * (981 / 100) + accelerometer_bias.z⟩
          ⟨-(toRadians piv ((gx : ℝ) * (gmul : ℝ) / (gdiv : ℝ))) - gyro_bias.x,
            toRadians piv ((gz : ℝ) * (gmul : ℝ) / (gdiv : ℝ)) + gyro_bias.y,
            toRadians piv ((gy : ℝ) * (gmul : ℝ) / (gdiv : ℝ)) + gyro_bias.z⟩
          (ts / 1000))) := by
  constructor
  · intro piv o gts gmul gdiv gx gy gz ats amul adiv ax ay az
      hgts hgmul hgdiv hgx1 hgx2 hgy1 hgy2 hgz1 hgz2
      hats hamul hadiv hax1 hax2 hay1 hay2 haz1 haz2
    rw [Ov580.receive_one_report, mkOv580Report_length,
      if_neg (by omega), mkOv580Report_getD, if_neg (by omega)]
    simp only [readLEAt, mkOv580Report, sub_append_lt, sub_append_ge, sub_all,
      leBytes_length, List.length_append, List.length_cons, List.length_nil,
      List.length_replicate, Nat.reduceAdd, Nat.reduceSub, Nat.reduceLeDiff,
      readLE_leBytes,
      show (256 : Nat) ^ 8 = 18446744073709551616 from by norm_num,
      show (256 : Nat) ^ 4 = 4294967296 from by norm_num,
      Nat.mod_eq_of_lt (show gts < 18446744073709551616 by omega),
      Nat.mod_eq_of_lt (show gmul < 4294967296 by omega),
      Nat.mod_eq_of_lt (show gdiv < 4294967296 by omega),
      Nat.mod_eq_of_lt (show ats < 18446744073709551616 by omega),
      Nat.mod_eq_of_lt (show amul < 4294967296 by omega),
      Nat.mod_eq_of_lt (show adiv < 4294967296 by omega),
      Nat.mod_eq_of_lt (show encInt 32 gx < 4294967296 by have := encInt32_lt gx; omega),
      Nat.mod_eq_of_lt (show encInt 32 gy < 4294967296 by have := encInt32_lt gy; omega),
      Nat.mod_eq_of_lt (show encInt 32 gz < 4294967296 by have := encInt32_lt gz; omega),
      Nat.mod_eq_of_lt (show encInt 32 ax < 4294967296 by have := encInt32_lt ax; omega),
      Nat.mod_eq_of_lt (show encInt 32 ay < 4294967296 by have := encInt32_lt ay; omega),
      Nat.mod_eq_of_lt (show encInt 32 az < 4294967296 by have := encInt32_lt az; omega),
      toSigned_encInt32 gx hgx1 hgx2, toSigned_encInt32 gy hgy1 hgy2,
      toSigned_encInt32 gz hgz1 hgz2, toSigned_encInt32 ax hax1 hax2,
      toSigned_encInt32 ay hay1 hay2, toSigned_encInt32 az haz1 haz2]
  · intro piv gyro_bias accelerometer_bias ts gmul gdiv gx gy gz amul adiv
      ax ay az hts hgmul hgdiv hgx1 hgx2 hgy1 hgy2 hgz1 hgz2
      hamul hadiv hax1 hax2 hay1 hay2 haz1 haz2
    rw [ImuDevice.parse_report, mkAirImuReport_length, if_neg (by omega)]
    simp only [readLEAt, mkAirImuReport, sub_append_lt, sub_append_ge, sub_all,
      leBytes_length, List.length_append, List.length_cons, List.length_nil,
      List.length_replicate, Nat.reduceAdd, Nat.reduceSub, Nat.reduceLeDiff,
      readLE_leBytes,
      show (256 : Nat) ^ 8 = 18446744073709551616 from by norm_num,
      show (256 : Nat) ^ 4 = 4294967296 from by norm_num,
      show (256 : Nat) ^ 3 = 16777216 from by norm_num,
      show (256 : Nat) ^ 2 = 65536 from by norm_num,
      Nat.mod_eq_of_lt (show ts < 18446744073709551616 by omega),
      Nat.mod_eq_of_lt (show gmul < 65536 by omega),
      Nat.mod_eq_of_lt (show gdiv < 4294967296 by omega),
      Nat.mod_eq_of_lt (show amul < 65536 by omega),
      Nat.mod_eq_of_lt (show adiv < 4294967296 by omega),
      Nat.mod_eq_of_lt (show encInt 24 gx < 16777216 by have := encInt24_lt gx; omega),
      Nat.mod_eq_of_lt (show encInt 24 gy < 16777216 by have := encInt24_lt gy; omega),
      Nat.mod_eq_of_lt (show encInt 24 gz < 16777216 by have := encInt24_lt gz; omega),
      Nat.mod_eq_of_lt (show encInt 24 ax < 16777216 by have := encInt24_lt ax; omega),
      Nat.mod_eq_of_lt (show encInt 24 ay < 16777216 by have := encInt24_lt ay; omega),
      Nat.mod_eq_of_lt (show encInt 24 az < 16777216 by have := encInt24_lt az; omega),
      toSigned_encInt24 gx hgx1 hgx2, toSigned_encInt24 gy hgy1 hgy2,
      toSigned_encInt24 gz hgz1 hgz2, toSigned_encInt24 ax hax1 hax2,
      toSigned_encInt24 ay hay1 hay2, toSigned_encInt24 az haz1 haz2]

/-- Witness for C7 at a concrete report of each family: unit scales, raw
ticks `(90, -90, 45)` (gyro) and `(1, -1, 2)` (accelerometer). -/
theorem claimC7_witness :
    Ov580.receive_one_report (0 : ℝ) (Ov580.init ℝ)
        (mkOv580Report 2000 1 1 (encInt 32 90) (encInt 32 (-90))
          (encInt 32 45) 3000 1 1 (encInt 32 1) (encInt 32 (-1))
          (encInt 32 2)) =
      .ok (some (⟨3, 981 / 100, 981 / 100, -(981 / 50)⟩, ⟨2, 0, 0, 0⟩)) := by
  have h := claimC7_sensor_normalization.1 (0 : ℝ) (Ov580.init ℝ)
    2000 1 1 90 (-90) 45 3000 1 1 1 (-1) 2
    (by norm_num) (by norm_num) (by norm_num) (by norm_num) (by norm_num)
    (by norm_num) (by norm_num) (by norm_num) (by norm_num) (by norm_num)
    (by norm_num) (by norm_num) (by norm_num) (by norm_num) (by norm_num)
    (by norm_num) (by norm_num) (by norm_num)
  rw [h]
  norm_num [toRadians, Ov580.init]

end ArDrivers
